import Mathlib

/-!
# MGL compute demos: a shallow embedding

Lean model of the host code and compute kernels of the MGL example programs
(`examples/conway.cpp`, `examples/3d/*`, `examples/mandelbrot_compute.cpp`,
`examples/compute_shader_example.cpp`, `examples/test_compute_minimal.cpp`).

Conventions.
* A C++ or GLSL `int` is a Lean `Int`; `/` and `%` on it are `Int.tdiv` and `Int.tmod`
  (truncation towards zero).  Signed overflow is undefined behaviour in the source and
  is not given a meaning here.
* A `Uint32` is a `Nat` below `2^32`, and its subtraction is taken modulo `2^32`.
* An rgba8 texel is its four stored bytes; the value a kernel loads from a channel is
  `byte / 255`, and a value `1.0` or `0.0` stored by a kernel is the byte `255` or `0`.
* A compute kernel is the function from its invocation id to the texel it passes to
  `imageStore` at that id, or `none` when it returns before the store.  Every kernel in
  the sources stores at `ivec2(gl_GlobalInvocationID.xy)` only.
* The driver is an explicit state: contents of the texture objects, image units, the
  2D texture binding, the program in use, and the list of GL calls issued so far.
-/

namespace MGL

/-! ## Texels and images -/

/-- The four stored bytes of an rgba8 texel. -/
structure Texel where
  r : Nat
  g : Nat
  b : Nat
  a : Nat
deriving DecidableEq, Repr

/-- A 2D texture level: its extent and the texel stored at each coordinate. -/
structure Image where
  width : Int
  height : Int
  data : Int → Int → Texel

/-- GLSL `imageSize`. -/
def imageSize (img : Image) : Int × Int := (img.width, img.height)

/-- GLSL `imageLoad`: the stored texel, and zero outside the image. -/
def imageLoad (img : Image) (p : Int × Int) : Texel :=
  if 0 ≤ p.1 ∧ p.1 < img.width ∧ 0 ≤ p.2 ∧ p.2 < img.height then img.data p.1 p.2
  else ⟨0, 0, 0, 0⟩

/-- The test `c > 0.5` on a channel loaded from an rgba8 image, where the loaded value
is `byte / 255`. -/
def aboveHalf (byte : Nat) : Bool := decide (255 < 2 * byte)

/-- The rows of an image, top row first, each row by increasing `x`. -/
def Image.rows (img : Image) : List (List Texel) :=
  (List.range img.height.toNat).map fun (y : Nat) =>
    (List.range img.width.toNat).map fun (x : Nat) => img.data (Int.ofNat x) (Int.ofNat y)

/-! ## The Game of Life kernel (`gol_compute_shader_source`) -/

/-- The neighbour coordinate computed in the inner loop of the kernel. -/
def golNeighbor (size texelCoord : Int × Int) (dx dy : Int) : Int × Int :=
  ((texelCoord.1 + dx + size.1).tmod size.1, (texelCoord.2 + dy + size.2).tmod size.2)

/-- The two nested `for` loops of the kernel: the number of the eight surrounding cells
whose red channel is above 0.5. -/
def golSum (inputImage : Image) (texelCoord : Int × Int) : Int :=
  ([-1, 0, 1] : List Int).foldl (fun sum dy =>
    ([-1, 0, 1] : List Int).foldl (fun sum dx =>
      if dx = 0 ∧ dy = 0 then sum
      else
        let neighbor := golNeighbor (imageSize inputImage) texelCoord dx dy
        let cell := (imageLoad inputImage neighbor).r
        sum + (if aboveHalf cell then 1 else 0)) sum) 0

/-- The transition rule at the end of the kernel. -/
def golNextAlive (sum : Int) (alive : Bool) : Bool :=
  if sum = 3 then true
  else if sum = 2 ∧ alive = true then true
  else false

/-- One invocation of `main` of the Game of Life kernel. -/
def golMain (inputImage : Image) (gid : Int × Int) : Option Texel :=
  let texelCoord := gid
  let size := imageSize inputImage
  if texelCoord.1 ≥ size.1 ∨ texelCoord.2 ≥ size.2 then none
  else
    let sum := golSum inputImage texelCoord
    let current := (imageLoad inputImage texelCoord).r
    let alive := aboveHalf current
    let nextAlive := golNextAlive sum alive
    let next := if nextAlive then 255 else 0
    some ⟨next, next, next, 255⟩

/-! ## Dispatch -/

/-- The local size declared by every kernel: `local_size_x = 16, local_size_y = 16`. -/
def LOCAL_SIZE : Int := 16

/-- The invocation ids of `glDispatchCompute(num_groups_x, num_groups_y, 1)` with a local
size of 16 x 16. -/
def invoked (num_groups_x num_groups_y : Int) (gid : Int × Int) : Prop :=
  0 ≤ gid.1 ∧ gid.1 < LOCAL_SIZE * num_groups_x ∧ 0 ≤ gid.2 ∧ gid.2 < LOCAL_SIZE * num_groups_y

instance (gx gy : Int) (gid : Int × Int) : Decidable (invoked gx gy gid) :=
  inferInstanceAs
    (Decidable (0 ≤ gid.1 ∧ gid.1 < LOCAL_SIZE * gx ∧ 0 ≤ gid.2 ∧ gid.2 < LOCAL_SIZE * gy))

/-- The effect of `glDispatchCompute(num_groups_x, num_groups_y, 1)` on the image bound
for writing: every invoked id `(x, y)` runs `main`, and what it stores replaces the texel
at `(x, y)`; a store outside the image is discarded. -/
def dispatch (main : Int × Int → Option Texel) (num_groups_x num_groups_y : Int)
    (outputImage : Image) : Image :=
  { outputImage with
    data := fun x y =>
      if invoked num_groups_x num_groups_y (x, y) ∧ x < outputImage.width ∧
          y < outputImage.height then
        match main (x, y) with
        | some v => v
        | none => outputImage.data x y
      else outputImage.data x y }

/-- The group count used at every dispatch site: `(d + T - 1) / T`. -/
def numGroups (d T : Int) : Int := (d + T - 1).tdiv T

/-! ## Driver state of the Conway demo -/

inductive Access where
  | GL_READ_ONLY
  | GL_WRITE_ONLY
deriving DecidableEq, Repr

inductive Program where
  | gol_compute_program
  | display_program
deriving DecidableEq, Repr

/-- What `glBindImageTexture` records in an image unit; `texture` is the index `i` of
the bound object `textures[i]`. -/
structure ImageUnit where
  texture : Int
  access : Access
deriving DecidableEq, Repr

/-- The GL and MGL calls the Conway demo issues while it runs. -/
inductive GLCall where
  | glBindImageTexture (unit : Nat) (texture : Int) (access : Access)
  | glUseProgram (program : Program)
  | glDispatchCompute (num_groups_x num_groups_y num_groups_z : Int)
  | glMemoryBarrier
  | glBindTexture (texture : Int)
  | glTexImage2D (width height : Int)
  | glTexSubImage2D (width height : Int)
  | glBindFramebuffer
  | glViewport
  | glClear
  | glActiveTexture
  | glUniform1i
  | glBindVertexArray
  | glDrawArrays (first count : Int)
  | MGLswapBuffers
deriving DecidableEq, Repr

/-- The members of `ConwayGameOfLife` the simulation uses, with the driver state they
refer to.  `textures i` is the content of the texture object `textures[i]`. -/
structure ConwayGameOfLife where
  textures : Int → Image
  current_texture : Int
  generation : Int
  imageUnit : Nat → Option ImageUnit
  boundTexture : Option Int
  program : Option Program
  calls : List GLCall

namespace ConwayGameOfLife

def GRID_WIDTH : Int := 512
def GRID_HEIGHT : Int := 512
def WORK_GROUP_SIZE : Int := 16

/-- The object as constructed: `current_texture = 0`, `generation = 0`, no texture
storage yet. -/
def new : ConwayGameOfLife where
  textures := fun _ => ⟨0, 0, fun _ _ => ⟨0, 0, 0, 0⟩⟩
  current_texture := 0
  generation := 0
  imageUnit := fun _ => none
  boundTexture := none
  program := none
  calls := []

def log (s : ConwayGameOfLife) (c : GLCall) : ConwayGameOfLife :=
  { s with calls := s.calls ++ [c] }

def glBindImageTexture (s : ConwayGameOfLife) (unit : Nat) (texture : Int) (access : Access) :
    ConwayGameOfLife :=
  { s.log (.glBindImageTexture unit texture access) with
    imageUnit := Function.update s.imageUnit unit (some ⟨texture, access⟩) }

def glUseProgram (s : ConwayGameOfLife) (p : Program) : ConwayGameOfLife :=
  { s.log (.glUseProgram p) with program := some p }

def glBindTexture (s : ConwayGameOfLife) (texture : Int) : ConwayGameOfLife :=
  { s.log (.glBindTexture texture) with boundTexture := some texture }

/-- With the Game of Life program in use the dispatch reads the image of unit 0
(`inputImage`, binding 0) and writes the image of unit 1 (`outputImage`, binding 1). -/
def glDispatchCompute (s : ConwayGameOfLife) (num_groups_x num_groups_y num_groups_z : Int) :
    ConwayGameOfLife :=
  let s1 := s.log (.glDispatchCompute num_groups_x num_groups_y num_groups_z)
  match s.program, s.imageUnit 0, s.imageUnit 1 with
  | some .gol_compute_program, some i, some o =>
    { s1 with
      textures := Function.update s.textures o.texture
        (dispatch (golMain (s.textures i.texture)) num_groups_x num_groups_y
          (s.textures o.texture)) }
  | _, _, _ => s1

def glMemoryBarrier (s : ConwayGameOfLife) : ConwayGameOfLife := s.log .glMemoryBarrier

/-- The call `glTexImage2D(..., GRID_WIDTH, GRID_HEIGHT, ..., nullptr)`: storage of the
given extent whose content `undef` is whatever the driver left there. -/
def glTexImage2D (s : ConwayGameOfLife) (width height : Int) (undef : Int → Int → Texel) :
    ConwayGameOfLife :=
  let s1 := s.log (.glTexImage2D width height)
  match s.boundTexture with
  | some t => { s1 with textures := Function.update s.textures t ⟨width, height, undef⟩ }
  | none => s1

/-- The call `glTexSubImage2D(GL_TEXTURE_2D, 0, 0, 0, width, height, GL_RGBA,
GL_UNSIGNED_BYTE, pixels)`: when the region fits the bound texture, texel `(x, y)` of the
region takes the four bytes at `4 * (y * width + x)`; otherwise the call is an error and
has no effect. -/
def glTexSubImage2D (s : ConwayGameOfLife) (width height : Int) (pixels : Int → Nat) :
    ConwayGameOfLife :=
  let s1 := s.log (.glTexSubImage2D width height)
  match s.boundTexture with
  | some t =>
    let img := s.textures t
    if 0 ≤ width ∧ width ≤ img.width ∧ 0 ≤ height ∧ height ≤ img.height then
      { s1 with
        textures := Function.update s.textures t
          { img with
            data := fun x y =>
              if 0 ≤ x ∧ x < width ∧ 0 ≤ y ∧ y < height then
                let i := y * width + x
                ⟨pixels (i * 4 + 0), pixels (i * 4 + 1), pixels (i * 4 + 2), pixels (i * 4 + 3)⟩
              else img.data x y } }
    else s1
  | none => s1

/-- The byte vector filled by the loop of `setupTextures` and of `randomizeGrid`:
`dis i` is the `i`-th draw of `dis(gen)`, and `val = dis(gen) * 255` as a `uint8_t`. -/
def randomState (dis : Nat → Fin 2) (j : Int) : Nat :=
  let i := j.tdiv 4
  let val := ((dis i.toNat).val * 255) % 256
  if j.tmod 4 = 3 then 255 else val

/-- The method `setupTextures`; `undef i` is the unspecified initial content of `textures[i]`. -/
def setupTextures (undef : Int → Int → Int → Texel) (dis : Nat → Fin 2)
    (s : ConwayGameOfLife) : ConwayGameOfLife :=
  let s := (s.glBindTexture 0).glTexImage2D GRID_WIDTH GRID_HEIGHT (undef 0)
  let s := (s.glBindTexture 1).glTexImage2D GRID_WIDTH GRID_HEIGHT (undef 1)
  let initial_state := randomState dis
  let s := s.glBindTexture 0
  s.glTexSubImage2D GRID_WIDTH GRID_HEIGHT initial_state

def swapTextures (s : ConwayGameOfLife) : ConwayGameOfLife :=
  { s with current_texture := 1 - s.current_texture }

def updateGeneration (s : ConwayGameOfLife) : ConwayGameOfLife :=
  let front := s.current_texture
  let back := 1 - s.current_texture
  let s := s.glBindImageTexture 0 front .GL_READ_ONLY
  let s := s.glBindImageTexture 1 back .GL_WRITE_ONLY
  let s := s.glUseProgram .gol_compute_program
  let num_groups_x := numGroups GRID_WIDTH WORK_GROUP_SIZE
  let num_groups_y := numGroups GRID_HEIGHT WORK_GROUP_SIZE
  let s := s.glDispatchCompute num_groups_x num_groups_y 1
  let s := s.glMemoryBarrier
  let s := s.swapTextures
  { s with generation := s.generation + 1 }

def render (s : ConwayGameOfLife) : ConwayGameOfLife :=
  let s := s.log .glBindFramebuffer
  let s := s.log .glViewport
  let s := s.log .glClear
  let s := s.log .glActiveTexture
  let s := s.glBindTexture s.current_texture
  let s := s.glUseProgram .display_program
  let s := s.log .glUniform1i
  let s := s.log .glBindVertexArray
  let s := s.log (.glDrawArrays 0 4)
  s.log .MGLswapBuffers

def randomizeGrid (dis : Nat → Fin 2) (s : ConwayGameOfLife) : ConwayGameOfLife :=
  let new_state := randomState dis
  let s := s.glBindTexture s.current_texture
  let s := s.glTexSubImage2D GRID_WIDTH GRID_HEIGHT new_state
  { s with generation := 0 }

/-- The states of the simulation once `run` has set the textures up: any sequence of
steps, resets and renders after `setupTextures`. -/
inductive Reachable : ConwayGameOfLife → Prop where
  | setup (undef : Int → Int → Int → Texel) (dis : Nat → Fin 2) :
      Reachable (setupTextures undef dis new)
  | step {s : ConwayGameOfLife} : Reachable s → Reachable (updateGeneration s)
  | reset {s : ConwayGameOfLife} (dis : Nat → Fin 2) :
      Reachable s → Reachable (randomizeGrid dis s)
  | draw {s : ConwayGameOfLife} : Reachable s → Reachable (render s)

/-- One Game of Life step as a function on grids: the dispatch `updateGeneration` issues,
with the group counts taken from the extent of `front`, reading `front` and writing
`back`. -/
def golStep (front back : Image) : Image :=
  dispatch (golMain front) (numGroups front.width WORK_GROUP_SIZE)
    (numGroups front.height WORK_GROUP_SIZE) back

/-- The index bound to image unit 0, the kernel's `readonly` input. -/
def readIndex (s : ConwayGameOfLife) : Option Int := (s.imageUnit 0).map fun u => u.texture

/-- The index bound to image unit 1, the kernel's `writeonly` output. -/
def writeIndex (s : ConwayGameOfLife) : Option Int := (s.imageUnit 1).map fun u => u.texture

/-- The texel `randomizeGrid` and `setupTextures` build for cell `(x, y)` from the draws. -/
def randomTexel (dis : Nat → Fin 2) (x y : Int) : Texel :=
  let val := ((dis (y * GRID_WIDTH + x).toNat).val * 255) % 256
  ⟨val, val, val, 255⟩

/-- Both textures have the extent of the grid and `current_texture` indexes one of them. -/
def WellFormed (s : ConwayGameOfLife) : Prop :=
  (∀ i : Int, i = 0 ∨ i = 1 →
    (s.textures i).width = GRID_WIDTH ∧ (s.textures i).height = GRID_HEIGHT) ∧
  (s.current_texture = 0 ∨ s.current_texture = 1)

/-- The demo after `setupTextures` drew only dead cells and one step was taken. -/
def afterOneStep : ConwayGameOfLife :=
  updateGeneration (setupTextures (fun _ _ _ => ⟨0, 0, 0, 0⟩) (fun _ => 0) new)

end ConwayGameOfLife

/-! ## Test grids -/

def live : Texel := ⟨255, 255, 255, 255⟩
def dead : Texel := ⟨0, 0, 0, 255⟩

/-- The 4 x 4 grid whose live cells are row 1, columns 0..2. -/
def blinker : Image where
  width := 4
  height := 4
  data := fun x y => if y = 1 ∧ 0 ≤ x ∧ x ≤ 2 then live else dead

/-- A 4 x 4 image with nothing written to it. -/
def blank4 : Image where
  width := 4
  height := 4
  data := fun _ _ => ⟨0, 0, 0, 0⟩

/-! ## The other kernels

Their colour computations are floating point; each is a parameter here.  `Color` is the
`vec4` handed to `imageStore`. -/

/-- The kernel `main` of `3d/compute_shader.cpp`; `trace coord size` is the traced colour. -/
def rayTracerMain {Color : Type} (trace : Int × Int → Int × Int → Color)
    (size gid : Int × Int) : Option Color :=
  let coord := gid
  if coord.1 ≥ size.1 ∨ coord.2 ≥ size.2 then none
  else some (trace coord size)

/-- The kernel `main` of `compute_shader_example.cpp`; `wave coord size` is the colour of
the wave pattern. -/
def waveMain {Color : Type} (wave : Int × Int → Int × Int → Color)
    (size gid : Int × Int) : Option Color :=
  let coord := gid
  if coord.1 ≥ size.1 ∨ coord.2 ≥ size.2 then none
  else some (wave coord size)

/-- The constant `max_iter` of the Mandelbrot kernel. -/
def max_iter : Int := 512

/-- The `for` loop of the Mandelbrot kernel from index `i` on, with `fuel` iterations
left to unroll; `escapes i` is the outcome of `dot(z, z) > 4.0` in iteration `i`. -/
def mandelbrotLoop (escapes : Int → Bool) (iterations : Int) (i : Int) : Nat → Int
  | 0 => iterations
  | fuel + 1 =>
    if i < max_iter then
      if escapes i then i
      else mandelbrotLoop escapes iterations (i + 1) fuel
    else iterations

/-- The value of `iterations` after the loop of the Mandelbrot kernel. -/
def mandelbrotIterations (escapes : Int → Bool) : Int :=
  mandelbrotLoop escapes 0 0 max_iter.toNat

/-- The kernel `main` of `mandelbrot_compute.cpp`; `escapes coord dims` is the escape test
along the orbit of the pixel, `palette` the colour of the first branch and `black` the
colour `vec3(0.0)` of the second. -/
def mandelbrotMain {Color : Type} (escapes : Int × Int → Int × Int → Int → Bool)
    (palette : Int × Int → Int × Int → Int → Color) (black : Color)
    (dims gid : Int × Int) : Option Color :=
  let coord := gid
  if coord.1 ≥ dims.1 ∨ coord.2 ≥ dims.2 then none
  else
    let iterations := mandelbrotIterations (escapes coord dims)
    let color := if iterations < max_iter then palette coord dims iterations else black
    some color

/-- The kernel `main` of `test_compute_minimal.cpp`: it stores `red`, the colour
`vec4(1.0, 0.0, 0.0, 1.0)`, at its coordinate. -/
def minimalMain {Color : Type} (red : Color) (_gid : Int × Int) : Option Color :=
  some red

/-- The colour `vec4(1.0, 0.0, 0.0, 1.0)` of the minimal test, component by component. -/
def red : Int × Int × Int × Int := (1, 0, 0, 1)

/-! ## Building programs (`compileGLSLProgram`, `compileComputeShader`) -/

inductive GLenum where
  | GL_VERTEX_SHADER
  | GL_FRAGMENT_SHADER
  | GL_COMPUTE_SHADER
deriving DecidableEq, Repr

/-- A shader stage as passed to `compileGLSLProgram`: its type and its source text. -/
abbrev Stage := GLenum × String

/-- What the GLSL compiler and linker of the driver answer: `GL_COMPILE_STATUS` of a
stage after `glCompileShader`, and `GL_LINK_STATUS` of a program after `glLinkProgram`
with the given stages attached. -/
structure Compiler where
  compileStatus : Stage → Bool
  linkStatus : List Stage → Bool

/-- The calls on shader and program objects. -/
inductive ShaderCall where
  | glCreateProgram (program : Nat)
  | glCreateShader (type : GLenum) (shader : Nat)
  | glShaderSource (shader : Nat) (source : String)
  | glCompileShader (shader : Nat)
  | glGetShaderInfoLog (shader : Nat)
  | glAttachShader (program shader : Nat)
  | glDeleteShader (shader : Nat)
  | glLinkProgram (program : Nat)
  | glGetProgramInfoLog (program : Nat)
deriving DecidableEq, Repr

/-- The object names of the driver: `next` is the name the next `glCreateShader` or
`glCreateProgram` returns, `calls` the calls issued so far. -/
structure ShaderGL where
  next : Nat
  calls : List ShaderCall
deriving DecidableEq, Repr

namespace ShaderGL

def log (g : ShaderGL) (c : ShaderCall) : ShaderGL := { g with calls := g.calls ++ [c] }

def glCreateProgram (g : ShaderGL) : Nat × ShaderGL :=
  (g.next, { next := g.next + 1, calls := g.calls ++ [.glCreateProgram g.next] })

def glCreateShader (g : ShaderGL) (type : GLenum) : Nat × ShaderGL :=
  (g.next, { next := g.next + 1, calls := g.calls ++ [.glCreateShader type g.next] })

end ShaderGL

/-- The body of the `for` loop of `compileGLSLProgram` over the remaining stages.
`attached` are the stages attached so far; the result is `none` when the function
returns 0 from inside the loop. -/
def compileStages (c : Compiler) (program : Nat) :
    List Stage → List Stage → ShaderGL → Option (List Stage) × ShaderGL
  | [], attached, g => (some attached, g)
  | (shader_type, shader_source) :: rest, attached, g =>
    let (shader, g) := g.glCreateShader shader_type
    let g := g.log (.glShaderSource shader shader_source)
    let g := g.log (.glCompileShader shader)
    let success := c.compileStatus (shader_type, shader_source)
    if !success then
      let g := g.log (.glGetShaderInfoLog shader)
      (none, g)
    else
      let g := g.log (.glAttachShader program shader)
      let g := g.log (.glDeleteShader shader)
      compileStages c program rest (attached ++ [(shader_type, shader_source)]) g

/-- The function `compileGLSLProgram(count, ...)`, the variadic arguments given as the
list of `count` stages.  The result is the returned `GLuint` and the driver afterwards. -/
def compileGLSLProgram (c : Compiler) (stages : List Stage) (g : ShaderGL) : Nat × ShaderGL :=
  let (program, g) := g.glCreateProgram
  match compileStages c program stages [] g with
  | (none, g) => (0, g)
  | (some attached, g) =>
    let g := g.log (.glLinkProgram program)
    let success := c.linkStatus attached
    if !success then
      let g := g.log (.glGetProgramInfoLog program)
      (0, g)
    else (program, g)

/-- The function `compileComputeShader(shader_source)` of `conway.cpp`. -/
def compileComputeShader (c : Compiler) (shader_source : String) (g : ShaderGL) :
    Nat × ShaderGL :=
  let (shader, g) := g.glCreateShader .GL_COMPUTE_SHADER
  let g := g.log (.glShaderSource shader shader_source)
  let g := g.log (.glCompileShader shader)
  let success := c.compileStatus (.GL_COMPUTE_SHADER, shader_source)
  if !success then
    let g := g.log (.glGetShaderInfoLog shader)
    (0, g)
  else
    let (program, g) := g.glCreateProgram
    let g := g.log (.glAttachShader program shader)
    let g := g.log (.glLinkProgram program)
    let g := g.log (.glDeleteShader shader)
    let success := c.linkStatus [(.GL_COMPUTE_SHADER, shader_source)]
    if !success then
      let g := g.log (.glGetProgramInfoLog program)
      (0, g)
    else (program, g)

/-- The shader objects a call list creates with `glCreateShader`. -/
def createdShaders : List ShaderCall → List Nat
  | [] => []
  | .glCreateShader _ shader :: cs => shader :: createdShaders cs
  | _ :: cs => createdShaders cs

/-- The shader objects a call list passes to `glDeleteShader`. -/
def deletedShaders : List ShaderCall → List Nat
  | [] => []
  | .glDeleteShader shader :: cs => shader :: deletedShaders cs
  | _ :: cs => deletedShaders cs

/-- The shader objects created and never passed to `glDeleteShader`. -/
def leakedShaders (calls : List ShaderCall) : List Nat :=
  (createdShaders calls).filter fun sh => !(deletedShaders calls).contains sh

/-- Whether a call list holds a `glLinkProgram`. -/
def linkAttempted (calls : List ShaderCall) : Bool :=
  calls.any fun
    | .glLinkProgram _ => true
    | _ => false

/-- A driver that has created nothing yet; the first name it hands out is 1. -/
def freshGL : ShaderGL := { next := 1, calls := [] }

/-- A compiler that accepts every stage but those whose source is `"syntax error"`, and
links whatever compiled. -/
def strictCompiler : Compiler where
  compileStatus := fun st => st.2 != "syntax error"
  linkStatus := fun _ => true

/-! ## The frame loop of the Conway demo (`ConwayGameOfLife::run`) -/

inductive SDL_Keycode where
  | SDLK_ESCAPE
  | SDLK_SPACE
  | SDLK_r
  | other (sym : Nat)
deriving DecidableEq, Repr

inductive SDL_Event where
  | SDL_QUIT
  | SDL_KEYDOWN (sym : SDL_Keycode)
  | other (type : Nat)
deriving DecidableEq, Repr

/-- Subtraction of two `Uint32` values. -/
def sub32 (a b : Nat) : Nat := (a + 2 ^ 32 - b) % 2 ^ 32

/-- The locals of `run` that live across iterations, and the object itself. -/
structure RunLoop where
  game : ConwayGameOfLife
  running : Bool
  paused : Bool
  last_update : Nat

namespace RunLoop

def update_interval : Nat := 160

/-- The locals at the first test of `while (running)`; `ticks` is what `SDL_GetTicks`
returned for `last_update`. -/
def start (game : ConwayGameOfLife) (ticks : Nat) : RunLoop :=
  { game := game, running := true, paused := false, last_update := ticks }

/-- The body of `while (SDL_PollEvent(&event))` for one event.  An event comes with the
draws a reset would take from `std::random_device` at that moment. -/
def handleEvent (st : RunLoop) (e : SDL_Event × (Nat → Fin 2)) : RunLoop :=
  match e.1 with
  | .SDL_QUIT => { st with running := false }
  | .SDL_KEYDOWN .SDLK_ESCAPE => { st with running := false }
  | .SDL_KEYDOWN .SDLK_SPACE => { st with paused := !st.paused }
  | .SDL_KEYDOWN .SDLK_r => { st with game := st.game.randomizeGrid e.2 }
  | .SDL_KEYDOWN (.other _) => st
  | .other _ => st

/-- The inner loop that drains the pending events. -/
def pollEvents (st : RunLoop) (events : List (SDL_Event × (Nat → Fin 2))) : RunLoop :=
  events.foldl handleEvent st

/-- The time owed at an instant: `current_time - last_update` in `Uint32`. -/
def owed (st : RunLoop) (current_time : Nat) : Nat := sub32 current_time st.last_update

/-- Whether the test `!paused && current_time - last_update >= update_interval` holds. -/
def stepDue (st : RunLoop) (current_time : Nat) : Bool :=
  !st.paused && decide (owed st current_time ≥ update_interval)

/-- The simulation update of one iteration, after the events are drained. -/
def update (st : RunLoop) (current_time : Nat) : RunLoop :=
  if stepDue st current_time then
    { st with game := st.game.updateGeneration, last_update := current_time }
  else st

/-- One iteration of `while (running)`: `events` are the events pending when it starts
and `current_time` is what `SDL_GetTicks` returns in it. -/
def frame (events : List (SDL_Event × (Nat → Fin 2))) (current_time : Nat) (st : RunLoop) :
    RunLoop :=
  let st := st.pollEvents events
  let st := st.update current_time
  { st with game := st.game.render }

/-- The loop entered at tick 0 on a grid of dead cells. -/
def startedAtZero : RunLoop :=
  start (ConwayGameOfLife.setupTextures (fun _ _ _ => ⟨0, 0, 0, 0⟩) (fun _ => 0)
    ConwayGameOfLife.new) 0

end RunLoop

/-! ## Reading the call list of the Conway demo -/

/-- Whether a call is a `glDispatchCompute`. -/
def isDispatch : GLCall → Bool
  | .glDispatchCompute _ _ _ => true
  | _ => false

/-- Whether a call is the `glDrawArrays` of `render`. -/
def isDraw : GLCall → Bool
  | .glDrawArrays _ _ => true
  | _ => false

/-- The number of dispatches in a call list: one per call of `updateGeneration`. -/
def dispatchCount (calls : List GLCall) : Nat := calls.countP isDispatch

/-- The number of draws in a call list: one per call of `render`. -/
def drawCount (calls : List GLCall) : Nat := calls.countP isDraw

/-- The kinds of call the ordering of dispatches and barriers is about: a dispatch, a
memory barrier, a draw that samples the image a dispatch wrote, and every other call. -/
inductive CallKind where
  | dispatch
  | barrier
  | read
  | other
deriving DecidableEq, Repr

/-- Scans a sequence of calls with the flag `pending`, which says that a dispatch has been
issued and no barrier since.  The result is `none` when a draw or another dispatch is
issued while a dispatch is pending, and the final flag otherwise. -/
def hazardFree : Bool → List CallKind → Option Bool
  | pending, [] => some pending
  | pending, .dispatch :: rest => if pending then none else hazardFree true rest
  | _, .barrier :: rest => hazardFree false rest
  | pending, .read :: rest => if pending then none else hazardFree false rest
  | pending, .other :: rest => hazardFree pending rest

/-- The kind of a call of the Conway demo. -/
def GLCall.kind : GLCall → CallKind
  | .glDispatchCompute _ _ _ => .dispatch
  | .glMemoryBarrier => .barrier
  | .glDrawArrays _ _ => .read
  | _ => .other

/-! ## Startup (`main`, `run`, `setupShaders`) -/

/-- What a run of `main` comes to: the status it returns and whether `while (running)`
was entered. -/
structure MainResult where
  status : Int
  loopEntered : Bool
deriving DecidableEq, Repr

/-- The three shader sources of a demo. -/
structure Sources where
  compute : String
  vertex : String
  fragment : String
deriving DecidableEq, Repr

namespace ConwayGameOfLife

/-- The method `setupShaders` of `conway.cpp`: the result and the driver afterwards. -/
def setupShaders (c : Compiler) (src : Sources) (g : ShaderGL) : Bool × ShaderGL :=
  let (gol_compute_program, g) := compileComputeShader c src.compute g
  if gol_compute_program = 0 then (false, g)
  else
    let (display_program, g) :=
      compileGLSLProgram c [(.GL_VERTEX_SHADER, src.vertex), (.GL_FRAGMENT_SHADER, src.fragment)] g
    if display_program = 0 then (false, g)
    else (true, g)

/-- The setup part of `run`, which returns nothing: the result here is whether the loop is
entered.  `setupTextures` and `setupGeometry` return `true` on every path. -/
def runEntersLoop (c : Compiler) (src : Sources) (g : ShaderGL) : Bool :=
  if !(setupShaders c src g).1 then false
  else if !true then false
  else if !true then false
  else true

/-- The function `main` of `conway.cpp`; `init_ok` is what `game.initialize()` returned. -/
def main (init_ok : Bool) (c : Compiler) (src : Sources) (g : ShaderGL) : MainResult :=
  if !init_ok then ⟨1, false⟩
  else
    let entered := runEntersLoop c src g
    ⟨0, entered⟩

end ConwayGameOfLife

/-- The method `setupShaders` of the ray tracer and, but for three calls that clear the
screen first, of the wave demo. -/
def setupShaders (c : Compiler) (src : Sources) (g : ShaderGL) : Bool × ShaderGL :=
  let (compute_program, g) := compileGLSLProgram c [(.GL_COMPUTE_SHADER, src.compute)] g
  if compute_program = 0 then (false, g)
  else
    let (render_program, g) :=
      compileGLSLProgram c [(.GL_VERTEX_SHADER, src.vertex), (.GL_FRAGMENT_SHADER, src.fragment)] g
    if render_program = 0 then (false, g)
    else (true, g)

namespace RayTracer

/-- The setup part of `RayTracer::run`: whether the loop is entered. -/
def runEntersLoop (c : Compiler) (src : Sources) (g : ShaderGL) : Bool :=
  if !(setupShaders c src g).1 then false
  else if !true then false
  else if !true then false
  else true

/-- The function `main` of `3d/main.cpp`; `init_ok` is what `tracer.initialize()` returned. -/
def main (init_ok : Bool) (c : Compiler) (src : Sources) (g : ShaderGL) : MainResult :=
  if !init_ok then ⟨1, false⟩
  else
    let entered := runEntersLoop c src g
    ⟨0, entered⟩

end RayTracer

namespace ComputeShaderExample

/-- The setup part of `ComputeShaderExample::run`: whether the loop is entered. -/
def runEntersLoop (c : Compiler) (src : Sources) (g : ShaderGL) : Bool :=
  if !(setupShaders c src g).1 then false
  else if !true then false
  else if !true then false
  else true

/-- The function `main` of `compute_shader_example.cpp`; `init_ok` is what
`example.initialize()` returned. -/
def main (init_ok : Bool) (c : Compiler) (src : Sources) (g : ShaderGL) : MainResult :=
  if !init_ok then ⟨1, false⟩
  else
    let entered := runEntersLoop c src g
    ⟨0, entered⟩

end ComputeShaderExample

/-- Sources whose compute shader does not compile under `strictCompiler`. -/
def brokenCompute : Sources := ⟨"syntax error", "in vec2 position;", "out vec4 fragColor;"⟩

/-- Sources that all compile under `strictCompiler`. -/
def validSources : Sources := ⟨"void main();", "in vec2 position;", "out vec4 fragColor;"⟩

/-! ## The GL calls of the single-target programs

The ray tracer, the wave demo, the Mandelbrot demo and the minimal test write one texture
and draw it.  Their straight-line GL code is given as the list of calls it issues, each
object by the name of the variable that holds it. -/

inductive Object where
  | compute_shader
  | vertex_shader
  | fragment_shader
  | compute_program
  | render_program
  | program
  | texture
  | vao
  | vbo
  | ebo
  | camera_ubo
  | time_ubo
deriving DecidableEq, Repr

inductive Call where
  | glCreateShader (o : Object)
  | glShaderSource (o : Object)
  | glCompileShader (o : Object)
  | glCreateProgram (o : Object)
  | glAttachShader (p o : Object)
  | glLinkProgram (o : Object)
  | glDeleteShader (o : Object)
  | glCreateTextures (o : Object)
  | glTextureStorage2D (o : Object) (width height : Int)
  | glTextureParameteri (o : Object)
  | glCreateVertexArrays (o : Object)
  | glCreateBuffers (o : Object)
  | glGenBuffers (o : Object)
  | glNamedBufferData (o : Object)
  | glNamedBufferStorage (o : Object)
  | glVertexArrayVertexBuffer (a b : Object)
  | glVertexArrayElementBuffer (a b : Object)
  | glEnableVertexArrayAttrib (o : Object)
  | glVertexArrayAttribFormat (o : Object)
  | glVertexArrayAttribBinding (o : Object)
  | glViewport
  | glBindBuffer (o : Option Object)
  | glBufferData
  | glBufferSubData
  | glBindBufferBase (o : Object)
  | glUseProgram (o : Object)
  | glBindImageTexture (unit : Nat) (o : Object)
  | glDispatchCompute (num_groups_x num_groups_y num_groups_z : Int)
  | glMemoryBarrier
  | glFinish
  | glClearColor
  | glClear
  | glActiveTexture
  | glBindTexture (o : Object)
  | glBindVertexArray (o : Object)
  | glDrawElements (count : Nat)
  | MGLswapBuffers
  | glDeleteVertexArrays (o : Object)
  | glDeleteBuffers (o : Object)
  | glDeleteTextures (o : Object)
  | glDeleteProgram (o : Object)
deriving DecidableEq, Repr

/-- The kind of a call of a single-target program. -/
def Call.kind : Call → CallKind
  | .glDispatchCompute _ _ _ => .dispatch
  | .glMemoryBarrier => .barrier
  | .glDrawElements _ => .read
  | _ => .other

/-- The object a call creates, if it creates one. -/
def Call.creates : Call → Option Object
  | .glCreateShader o => some o
  | .glCreateProgram o => some o
  | .glCreateTextures o => some o
  | .glCreateVertexArrays o => some o
  | .glCreateBuffers o => some o
  | .glGenBuffers o => some o
  | _ => none

/-- The object a call deletes, if it deletes one. -/
def Call.deletes : Call → Option Object
  | .glDeleteShader o => some o
  | .glDeleteVertexArrays o => some o
  | .glDeleteBuffers o => some o
  | .glDeleteTextures o => some o
  | .glDeleteProgram o => some o
  | _ => none

/-- The objects a call list creates, in order. -/
def acquired (calls : List Call) : List Object := calls.filterMap Call.creates

/-- The objects a call list deletes, in order. -/
def released (calls : List Call) : List Object := calls.filterMap Call.deletes

/-- The objects created by the first call list that the first has not deleted itself:
what is held when the second starts. -/
def held (calls : List Call) : List Object :=
  (acquired calls).filter fun o => !(released calls).contains o

namespace RayTracer

def width : Int := 800
def height : Int := 600

def setupTexture : List Call :=
  [.glCreateTextures .texture, .glTextureStorage2D .texture width height]

def setupGeometry : List Call :=
  [.glCreateVertexArrays .vao, .glCreateBuffers .vbo, .glCreateBuffers .ebo,
   .glNamedBufferStorage .vbo, .glNamedBufferStorage .ebo,
   .glVertexArrayVertexBuffer .vao .vbo, .glVertexArrayElementBuffer .vao .ebo,
   .glVertexArrayAttribFormat .vao, .glVertexArrayAttribBinding .vao,
   .glEnableVertexArrayAttrib .vao,
   .glVertexArrayAttribFormat .vao, .glVertexArrayAttribBinding .vao,
   .glEnableVertexArrayAttrib .vao]

def setupCameraUniform : List Call :=
  [.glGenBuffers .camera_ubo, .glBindBuffer (some .camera_ubo), .glBufferData,
   .glBindBuffer none, .glBindBufferBase .camera_ubo]

def updateComputeShader : List Call :=
  [.glBindBuffer (some .camera_ubo), .glBufferSubData, .glBindBuffer none,
   .glBindImageTexture 0 .texture,
   .glUseProgram .compute_program,
   .glDispatchCompute ((width + 15).tdiv 16) ((height + 15).tdiv 16) 1,
   .glMemoryBarrier]

def render : List Call :=
  [.glClearColor, .glClear, .glUseProgram .render_program, .glActiveTexture,
   .glBindTexture .texture, .glBindVertexArray .vao, .glDrawElements 6, .MGLswapBuffers]

/-- The GL calls of `n` iterations of `while (running)`. -/
def frames : Nat → List Call
  | 0 => []
  | n + 1 => frames n ++ (updateComputeShader ++ render)

/-- The GL calls of `cleanup`: it destroys the window and quits SDL, and calls nothing
of GL. -/
def cleanup : List Call := []

/-- The GL calls of `run` once the programs are built, for `n` iterations of the loop,
followed by those of `cleanup`. -/
def run (n : Nat) : List Call :=
  setupTexture ++ setupGeometry ++ setupCameraUniform ++ frames n ++ cleanup

end RayTracer

namespace ComputeShaderExample

def width : Int := 800
def height : Int := 600

def setupTexture : List Call :=
  [.glCreateTextures .texture, .glTextureStorage2D .texture width height]

def setupGeometry : List Call :=
  [.glCreateVertexArrays .vao, .glCreateBuffers .vbo, .glCreateBuffers .ebo,
   .glNamedBufferStorage .vbo, .glNamedBufferStorage .ebo,
   .glVertexArrayVertexBuffer .vao .vbo, .glVertexArrayElementBuffer .vao .ebo,
   .glVertexArrayAttribFormat .vao, .glVertexArrayAttribBinding .vao,
   .glEnableVertexArrayAttrib .vao,
   .glVertexArrayAttribFormat .vao, .glVertexArrayAttribBinding .vao,
   .glEnableVertexArrayAttrib .vao]

def setupTimeUniform : List Call :=
  [.glGenBuffers .time_ubo, .glBindBuffer (some .time_ubo), .glBufferData,
   .glBindBuffer none, .glBindBufferBase .time_ubo]

def updateComputeShader : List Call :=
  [.glBindBuffer (some .time_ubo), .glBufferSubData, .glBindBuffer none,
   .glBindImageTexture 0 .texture,
   .glUseProgram .compute_program,
   .glDispatchCompute ((width + 15).tdiv 16) ((height + 15).tdiv 16) 1,
   .glMemoryBarrier,
   .glFinish]

def render : List Call :=
  [.glClearColor, .glClear, .glUseProgram .render_program, .glActiveTexture,
   .glBindTexture .texture, .glBindVertexArray .vao, .glDrawElements 6, .MGLswapBuffers]

/-- The GL calls of `n` iterations of `while (running)`. -/
def frames : Nat → List Call
  | 0 => []
  | n + 1 => frames n ++ (updateComputeShader ++ render)

/-- The GL calls of `run` for `n` iterations of the loop: the three calls that open
`setupShaders`, then, the programs built, the setup and the loop. -/
def run (n : Nat) : List Call :=
  [.glClearColor, .glClear, .MGLswapBuffers] ++
    setupTexture ++ setupGeometry ++ setupTimeUniform ++ frames n

end ComputeShaderExample

namespace Mandelbrot

def WIDTH : Int := 1024
def HEIGHT : Int := 768

/-- The GL calls of `main` of `mandelbrot_compute.cpp` before `while (running)`. -/
def setup : List Call :=
  [.glCreateShader .compute_shader, .glShaderSource .compute_shader,
   .glCompileShader .compute_shader,
   .glCreateProgram .compute_program, .glAttachShader .compute_program .compute_shader,
   .glLinkProgram .compute_program, .glDeleteShader .compute_shader,
   .glCreateShader .vertex_shader, .glShaderSource .vertex_shader,
   .glCompileShader .vertex_shader,
   .glCreateShader .fragment_shader, .glShaderSource .fragment_shader,
   .glCompileShader .fragment_shader,
   .glCreateProgram .render_program, .glAttachShader .render_program .vertex_shader,
   .glAttachShader .render_program .fragment_shader, .glLinkProgram .render_program,
   .glDeleteShader .vertex_shader, .glDeleteShader .fragment_shader,
   .glCreateTextures .texture, .glTextureStorage2D .texture WIDTH HEIGHT,
   .glTextureParameteri .texture, .glTextureParameteri .texture,
   .glCreateVertexArrays .vao, .glCreateBuffers .vbo, .glCreateBuffers .ebo,
   .glNamedBufferData .vbo, .glNamedBufferData .ebo,
   .glVertexArrayVertexBuffer .vao .vbo, .glVertexArrayElementBuffer .vao .ebo,
   .glEnableVertexArrayAttrib .vao, .glEnableVertexArrayAttrib .vao,
   .glVertexArrayAttribFormat .vao, .glVertexArrayAttribFormat .vao,
   .glVertexArrayAttribBinding .vao, .glVertexArrayAttribBinding .vao,
   .glViewport,
   .glUseProgram .compute_program, .glBindImageTexture 0 .texture,
   .glDispatchCompute ((WIDTH + 15).tdiv 16) ((HEIGHT + 15).tdiv 16) 1,
   .glMemoryBarrier, .glFinish,
   .glClearColor, .glClear, .glActiveTexture, .glBindTexture .texture,
   .glUseProgram .render_program, .glBindVertexArray .vao, .glDrawElements 6,
   .MGLswapBuffers]

/-- The GL calls of `main` after the loop, which itself calls nothing of GL. -/
def teardown : List Call :=
  [.glDeleteVertexArrays .vao, .glDeleteBuffers .vbo, .glDeleteBuffers .ebo,
   .glDeleteTextures .texture, .glDeleteProgram .compute_program,
   .glDeleteProgram .render_program]

/-- All GL calls of `main`. -/
def main : List Call := setup ++ teardown

/-- The program construction at the head of `main`, on the driver of `compileGLSLProgram`:
it reads no compile or link status, so no `Compiler` enters. -/
def buildPrograms (compute_source vertex_source fragment_source : String) (g : ShaderGL) :
    (Nat × Nat) × ShaderGL :=
  let (compute_shader, g) := g.glCreateShader .GL_COMPUTE_SHADER
  let g := g.log (.glShaderSource compute_shader compute_source)
  let g := g.log (.glCompileShader compute_shader)
  let (compute_program, g) := g.glCreateProgram
  let g := g.log (.glAttachShader compute_program compute_shader)
  let g := g.log (.glLinkProgram compute_program)
  let g := g.log (.glDeleteShader compute_shader)
  let (vertex_shader, g) := g.glCreateShader .GL_VERTEX_SHADER
  let g := g.log (.glShaderSource vertex_shader vertex_source)
  let g := g.log (.glCompileShader vertex_shader)
  let (fragment_shader, g) := g.glCreateShader .GL_FRAGMENT_SHADER
  let g := g.log (.glShaderSource fragment_shader fragment_source)
  let g := g.log (.glCompileShader fragment_shader)
  let (render_program, g) := g.glCreateProgram
  let g := g.log (.glAttachShader render_program vertex_shader)
  let g := g.log (.glAttachShader render_program fragment_shader)
  let g := g.log (.glLinkProgram render_program)
  let g := g.log (.glDeleteShader vertex_shader)
  let g := g.log (.glDeleteShader fragment_shader)
  ((compute_program, render_program), g)

end Mandelbrot

namespace MinimalTest

/-- The GL calls of `main` of `test_compute_minimal.cpp` when the shader compiles and the
program links. -/
def main : List Call :=
  [.glCreateShader .compute_shader, .glShaderSource .compute_shader,
   .glCompileShader .compute_shader,
   .glCreateProgram .program, .glAttachShader .program .compute_shader,
   .glLinkProgram .program, .glDeleteShader .compute_shader,
   .glCreateTextures .texture, .glTextureStorage2D .texture 800 600,
   .glUseProgram .program, .glBindImageTexture 0 .texture,
   .glDispatchCompute 50 38 1, .glMemoryBarrier,
   .glDeleteTextures .texture, .glDeleteProgram .program]

end MinimalTest

/-! ## The neighbourhood of a cell -/

/-- The eight offsets the two loops of the kernel visit, in the order they visit them. -/
def offsets8 : List (Int × Int) :=
  [(-1, -1), (0, -1), (1, -1), (-1, 0), (1, 0), (-1, 1), (0, 1), (1, 1)]

/-- Whether the cell at offset `(dx, dy)` from `texelCoord` is alive, as the kernel
tests it. -/
def neighbourAlive (inputImage : Image) (texelCoord : Int × Int) (d : Int × Int) : Bool :=
  aboveHalf (imageLoad inputImage (golNeighbor (imageSize inputImage) texelCoord d.1 d.2)).r

/-! ## The display quad

The positions are the floats -1.0 and 1.0 of the vertex arrays, exact as rationals.  The
vertex shaders pass `position` on as `gl_Position = vec4(position, 0.0, 1.0)`, so a
position is a clip-space point.  No demo enables face culling, so a triangle is drawn
whatever its winding. -/

/-- A point of the clip-space plane. -/
abbrev Point := ℚ × ℚ

/-- The edge function of the edge from `a` to `b` at `p`. -/
def edgeFunction (a b p : Point) : ℚ :=
  (b.1 - a.1) * (p.2 - a.2) - (b.2 - a.2) * (p.1 - a.1)

/-- Whether `p` lies in the closed triangle `a b c`: on the same side of its three edges. -/
def inTriangle (a b c p : Point) : Prop :=
  (0 ≤ edgeFunction a b p ∧ 0 ≤ edgeFunction b c p ∧ 0 ≤ edgeFunction c a p) ∨
  (edgeFunction a b p ≤ 0 ∧ edgeFunction b c p ≤ 0 ∧ edgeFunction c a p ≤ 0)

instance (a b c p : Point) : Decidable (inTriangle a b c p) :=
  inferInstanceAs (Decidable
    ((0 ≤ edgeFunction a b p ∧ 0 ≤ edgeFunction b c p ∧ 0 ≤ edgeFunction c a p) ∨
     (edgeFunction a b p ≤ 0 ∧ edgeFunction b c p ≤ 0 ∧ edgeFunction c a p ≤ 0)))

/-- The position attribute of vertex `i`: the first two floats of its `stride` floats. -/
def positionOf (vertices : List ℚ) (stride i : Nat) : Point :=
  (vertices.getD (stride * i) 0, vertices.getD (stride * i + 1) 0)

/-- The triangles of a `GL_TRIANGLES` draw: the index list cut in threes. -/
def trianglesOf : List Nat → List (Nat × Nat × Nat)
  | a :: b :: c :: rest => (a, b, c) :: trianglesOf rest
  | _ => []

/-- The triangles of a `GL_TRIANGLE_STRIP` draw of `count` vertices from `first`:
triangle `k` has the vertices `first + k`, `first + k + 1`, `first + k + 2`. -/
def stripTriangles (first count : Nat) : List (Nat × Nat × Nat) :=
  (List.range (count - 2)).map fun k => (first + k, first + k + 1, first + k + 2)

/-- Whether a draw of the triangles `tris` over the vertex array covers the point `p`. -/
def covers (vertices : List ℚ) (stride : Nat) (tris : List (Nat × Nat × Nat)) (p : Point) :
    Prop :=
  ∃ t ∈ tris, inTriangle (positionOf vertices stride t.1) (positionOf vertices stride t.2.1)
    (positionOf vertices stride t.2.2) p

/-- The clip-space square `[-1, 1] x [-1, 1]`, which the viewport shows. -/
def inViewport (p : Point) : Prop := -1 ≤ p.1 ∧ p.1 ≤ 1 ∧ -1 ≤ p.2 ∧ p.2 ≤ 1

/-- The array `vertices` of `setupGeometry` of the ray tracer (and of the wave demo and of
`main` of the Mandelbrot demo): position and texture coordinate of four vertices. -/
def RayTracer.vertices : List ℚ :=
  [-1, -1, 0, 0, 1, -1, 1, 0, 1, 1, 1, 1, -1, 1, 0, 1]

/-- The array `indices` next to it, drawn by `glDrawElements(GL_TRIANGLES, 6, ...)`. -/
def RayTracer.indices : List Nat := [0, 1, 2, 2, 3, 0]

/-- The array `quad_vertices` of `setupGeometry` of the Conway demo, drawn by
`glDrawArrays(GL_TRIANGLE_STRIP, 0, 4)`. -/
def ConwayGameOfLife.quad_vertices : List ℚ := [-1, -1, 1, -1, -1, 1, 1, 1]

/-! ## Reads and writes of whole textures in the call list of the Conway demo -/

/-- What a replay keeps to follow reads: the indices bound to image units 0 and 1 and to
`GL_TEXTURE_2D`, the textures of which every cell has been written, and whether every read
so far was of such a texture. -/
structure ReadTrack where
  unit0 : Option Int
  unit1 : Option Int
  bound : Option Int
  written : List Int
  ok : Bool
deriving DecidableEq, Repr

/-- Whether a texture index is known and fully written. -/
def ReadTrack.has (t : ReadTrack) : Option Int → Bool
  | some i => t.written.contains i
  | none => false

/-- The effect of one call on the replay.  `glTexImage2D` with no data leaves the bound
texture unwritten; `glTexSubImage2D` of the whole grid writes the bound texture; a dispatch
reads the texture of unit 0 and, when its groups cover the grid, writes the texture of
unit 1; a draw reads the bound texture. -/
def readCall (t : ReadTrack) : GLCall → ReadTrack
  | .glBindImageTexture unit texture _ =>
    if unit = 0 then { t with unit0 := some texture }
    else if unit = 1 then { t with unit1 := some texture }
    else t
  | .glBindTexture texture => { t with bound := some texture }
  | .glTexImage2D _ _ =>
    match t.bound with
    | some b => { t with written := t.written.filter fun i => i != b }
    | none => t
  | .glTexSubImage2D width height =>
    match t.bound with
    | some b =>
      if width = ConwayGameOfLife.GRID_WIDTH ∧ height = ConwayGameOfLife.GRID_HEIGHT then
        { t with written := b :: t.written }
      else t
    | none => t
  | .glDispatchCompute num_groups_x num_groups_y _ =>
    let t := { t with ok := t.ok && t.has t.unit0 }
    match t.unit1 with
    | some o =>
      if ConwayGameOfLife.GRID_WIDTH ≤ LOCAL_SIZE * num_groups_x ∧
          ConwayGameOfLife.GRID_HEIGHT ≤ LOCAL_SIZE * num_groups_y then
        { t with written := o :: t.written }
      else t
    | none => t
  | .glDrawArrays _ _ => { t with ok := t.ok && t.has t.bound }
  | _ => t

/-- The replay of a whole call list. -/
def readTrack (calls : List GLCall) : ReadTrack :=
  calls.foldl readCall ⟨none, none, none, [], true⟩

/-- One thing the frame loop does to the game. -/
inductive Op where
  | step
  | reset (dis : Nat → Fin 2)
  | draw

/-- The method an `Op` stands for. -/
def Op.apply : Op → ConwayGameOfLife → ConwayGameOfLife
  | .step, s => s.updateGeneration
  | .reset dis, s => s.randomizeGrid dis
  | .draw, s => s.render

/-- The game after `setupTextures` and a sequence of steps, resets and draws; `undef` is
the content the driver left in the storage of the two textures. -/
def runOps (undef : Int → Int → Int → Texel) (dis : Nat → Fin 2) (ops : List Op) :
    ConwayGameOfLife :=
  ops.foldl (fun s o => o.apply s)
    (ConwayGameOfLife.setupTextures undef dis ConwayGameOfLife.new)

/-- Storage filled with a byte pattern no upload and no kernel writes. -/
def garbage : Int → Int → Int → Texel := fun _ _ _ => ⟨7, 7, 7, 7⟩

/-! ## Ticks -/

/-- What `SDL_GetTicks` returns `T` milliseconds after SDL started: `T` as a `Uint32`. -/
def SDL_GetTicks (T : Nat) : Nat := T % 2 ^ 32

/-- The programs a call list creates with `glCreateProgram`. -/
def createdPrograms : List ShaderCall → List Nat
  | [] => []
  | .glCreateProgram program :: cs => program :: createdPrograms cs
  | _ :: cs => createdPrograms cs

namespace ConwayGameOfLife

/-- Every cell of the front texture holds a live or a dead texel. -/
def FrontBinary (s : ConwayGameOfLife) : Prop :=
  ∀ x y : Int, 0 ≤ x → x < GRID_WIDTH → 0 ≤ y → y < GRID_HEIGHT →
    (s.textures s.current_texture).data x y = live ∨
    (s.textures s.current_texture).data x y = dead

/-- Two games have the same front index and the same content in every cell of the front
texture. -/
def FrontAgree (s s' : ConwayGameOfLife) : Prop :=
  s.current_texture = s'.current_texture ∧
  ∀ x y : Int, 0 ≤ x → x < GRID_WIDTH → 0 ≤ y → y < GRID_HEIGHT →
    (s.textures s.current_texture).data x y = (s'.textures s'.current_texture).data x y

end ConwayGameOfLife

namespace RunLoop

/-- The loop after the iteration at tick 160, which takes a step, and the iteration at tick
170, which polls a SPACE key press: paused, one generation in. -/
def pausedAfterOneStep : RunLoop :=
  frame [(.SDL_KEYDOWN .SDLK_SPACE, fun _ => 0)] 170 (frame [] 160 startedAtZero)

end RunLoop

/-! # Theorems -/

/-! ## Ceiling division of the dispatch sites -/

theorem numGroups_eq_ediv (d : Int) (hd : 0 ≤ d) : numGroups d 16 = (d + 15) / 16 := by
  unfold numGroups
  rw [Int.tdiv_eq_ediv (by omega) (by omega)]
  congr 1
  omega

theorem numGroups_bounds (d : Int) (hd : 1 ≤ d) :
    d ≤ 16 * numGroups d 16 ∧ 16 * (numGroups d 16 - 1) < d := by
  rw [numGroups_eq_ediv d (by omega)]
  omega

/-! ## The kernel depends on the in-bounds texels only -/

theorem imageLoad_congr (g g' : Image) (hw : g.width = g'.width) (hh : g.height = g'.height)
    (hd : ∀ x y : Int, 0 ≤ x → x < g.width → 0 ≤ y → y < g.height → g.data x y = g'.data x y) :
    imageLoad g = imageLoad g' := by
  funext p
  unfold imageLoad
  rw [← hw, ← hh]
  by_cases hp : 0 ≤ p.1 ∧ p.1 < g.width ∧ 0 ≤ p.2 ∧ p.2 < g.height
  · rw [if_pos hp, if_pos hp]
    exact hd _ _ hp.1 hp.2.1 hp.2.2.1 hp.2.2.2
  · rw [if_neg hp, if_neg hp]

theorem golMain_congr (g g' : Image) (hw : g.width = g'.width) (hh : g.height = g'.height)
    (hd : ∀ x y : Int, 0 ≤ x → x < g.width → 0 ≤ y → y < g.height → g.data x y = g'.data x y) :
    golMain g = golMain g' := by
  funext p
  simp only [golMain, golSum, imageSize, imageLoad_congr g g' hw hh hd, hw, hh]

theorem golMain_isSome (g : Image) (x y : Int) (hx : x < g.width) (hy : y < g.height) :
    ∃ v, golMain g (x, y) = some v := by
  simp only [golMain, imageSize]
  rw [if_neg (by omega)]
  exact ⟨_, rfl⟩

theorem rows_congr (g g' : Image) (hw : g.width = g'.width) (hh : g.height = g'.height)
    (hd : ∀ x y : Int, 0 ≤ x → x < g.width → 0 ≤ y → y < g.height → g.data x y = g'.data x y) :
    g.rows = g'.rows := by
  unfold Image.rows
  rw [← hw, ← hh]
  apply List.map_congr_left
  intro y hy
  apply List.map_congr_left
  intro x hx
  rw [List.mem_range] at hx hy
  apply hd <;> simp only [Int.ofNat_eq_coe] <;> omega

namespace ConwayGameOfLife

/-! ## Projections of the methods -/

theorem updateGeneration_generation (s : ConwayGameOfLife) :
    (updateGeneration s).generation = s.generation + 1 := by
  simp only [updateGeneration, swapTextures, glMemoryBarrier, log, glDispatchCompute]
  split <;> rfl

theorem updateGeneration_current_texture (s : ConwayGameOfLife) :
    (updateGeneration s).current_texture = 1 - s.current_texture := by
  simp only [updateGeneration, swapTextures, glMemoryBarrier, log, glDispatchCompute]
  split <;> rfl

theorem updateGeneration_imageUnit (s : ConwayGameOfLife) :
    (updateGeneration s).imageUnit =
      Function.update (Function.update s.imageUnit 0 (some ⟨s.current_texture, .GL_READ_ONLY⟩))
        1 (some ⟨1 - s.current_texture, .GL_WRITE_ONLY⟩) := by
  simp only [updateGeneration, swapTextures, glMemoryBarrier, log, glDispatchCompute]
  split <;> rfl

theorem updateGeneration_calls (s : ConwayGameOfLife) :
    (updateGeneration s).calls = s.calls ++
      [.glBindImageTexture 0 s.current_texture .GL_READ_ONLY,
       .glBindImageTexture 1 (1 - s.current_texture) .GL_WRITE_ONLY,
       .glUseProgram .gol_compute_program,
       .glDispatchCompute 32 32 1,
       .glMemoryBarrier] := by
  simp only [updateGeneration, swapTextures, glMemoryBarrier, log, glDispatchCompute]
  split <;>
    simp [glUseProgram, glBindImageTexture, log, numGroups, GRID_WIDTH, GRID_HEIGHT,
      WORK_GROUP_SIZE] <;> decide

theorem updateGeneration_textures (s : ConwayGameOfLife) :
    (updateGeneration s).textures =
      Function.update s.textures (1 - s.current_texture)
        (dispatch (golMain (s.textures s.current_texture)) 32 32
          (s.textures (1 - s.current_texture))) := by
  have h32 : numGroups 512 16 = 32 := by decide
  simp [updateGeneration, swapTextures, glMemoryBarrier, log, glDispatchCompute, glUseProgram,
    glBindImageTexture, GRID_WIDTH, GRID_HEIGHT, WORK_GROUP_SIZE, h32]

theorem readIndex_updateGeneration (s : ConwayGameOfLife) :
    readIndex (updateGeneration s) = some s.current_texture := by
  simp [readIndex, updateGeneration_imageUnit]

theorem writeIndex_updateGeneration (s : ConwayGameOfLife) :
    writeIndex (updateGeneration s) = some (1 - s.current_texture) := by
  simp [writeIndex, updateGeneration_imageUnit]

theorem front_ne_back (c : Int) : c ≠ 1 - c := by omega

theorem randomizeGrid_generation (dis : Nat → Fin 2) (s : ConwayGameOfLife) :
    (randomizeGrid dis s).generation = 0 := rfl

theorem randomizeGrid_current_texture (dis : Nat → Fin 2) (s : ConwayGameOfLife) :
    (randomizeGrid dis s).current_texture = s.current_texture := by
  simp only [randomizeGrid, glTexSubImage2D, glBindTexture, log]
  split <;> rfl

theorem iterate_generation (N : Nat) (s : ConwayGameOfLife) :
    (updateGeneration^[N] s).generation = s.generation + N := by
  induction N generalizing s with
  | zero => simp
  | succ n ih =>
    rw [Function.iterate_succ_apply, ih, updateGeneration_generation]
    push_cast; ring

theorem render_textures (s : ConwayGameOfLife) : (render s).textures = s.textures := by
  simp only [render, glBindTexture, glUseProgram, log]

theorem render_current_texture (s : ConwayGameOfLife) :
    (render s).current_texture = s.current_texture := by
  simp only [render, glBindTexture, glUseProgram, log]

theorem render_generation (s : ConwayGameOfLife) : (render s).generation = s.generation := by
  simp only [render, glBindTexture, glUseProgram, log]

theorem randomizeGrid_textures (dis : Nat → Fin 2) (s : ConwayGameOfLife)
    (hw : (s.textures s.current_texture).width = GRID_WIDTH)
    (hh : (s.textures s.current_texture).height = GRID_HEIGHT) :
    (randomizeGrid dis s).textures =
      Function.update s.textures s.current_texture
        { s.textures s.current_texture with
          data := fun x y =>
            if 0 ≤ x ∧ x < GRID_WIDTH ∧ 0 ≤ y ∧ y < GRID_HEIGHT then
              let i := y * GRID_WIDTH + x
              ⟨randomState dis (i * 4 + 0), randomState dis (i * 4 + 1),
                randomState dis (i * 4 + 2), randomState dis (i * 4 + 3)⟩
            else (s.textures s.current_texture).data x y } := by
  simp [randomizeGrid, glTexSubImage2D, glBindTexture, log, hw, hh, GRID_WIDTH, GRID_HEIGHT]

theorem randomState_texel (dis : Nat → Fin 2) (x y : Int) (hx : 0 ≤ x) (hy : 0 ≤ y) :
    (⟨randomState dis ((y * GRID_WIDTH + x) * 4 + 0),
      randomState dis ((y * GRID_WIDTH + x) * 4 + 1),
      randomState dis ((y * GRID_WIDTH + x) * 4 + 2),
      randomState dis ((y * GRID_WIDTH + x) * 4 + 3)⟩ : Texel) = randomTexel dis x y := by
  have hi : 0 ≤ y * GRID_WIDTH + x := by
    have : 0 ≤ y * GRID_WIDTH := mul_nonneg hy (by decide)
    omega
  unfold randomTexel
  generalize y * GRID_WIDTH + x = i at hi
  have hd : ∀ k : Int, 0 ≤ k → k < 4 → (i * 4 + k).tdiv 4 = i ∧ (i * 4 + k).tmod 4 = k := by
    intro k hk0 hk4
    rw [Int.tdiv_eq_ediv (by omega) (by omega), Int.tmod_eq_emod (by omega) (by omega)]
    omega
  simp only [randomState, (hd 0 (by omega) (by omega)).1, (hd 0 (by omega) (by omega)).2,
    (hd 1 (by omega) (by omega)).1, (hd 1 (by omega) (by omega)).2,
    (hd 2 (by omega) (by omega)).1, (hd 2 (by omega) (by omega)).2,
    (hd 3 (by omega) (by omega)).1, (hd 3 (by omega) (by omega)).2]
  simp

/-! ## What is reachable is well formed -/

theorem setupTextures_wellFormed (undef : Int → Int → Int → Texel) (dis : Nat → Fin 2) :
    WellFormed (setupTextures undef dis new) := by
  constructor
  · intro i hi
    rcases hi with rfl | rfl <;>
      simp [setupTextures, glTexImage2D, glTexSubImage2D, glBindTexture, log, new,
        GRID_WIDTH, GRID_HEIGHT, Function.update]
  · left
    simp [setupTextures, glTexImage2D, glTexSubImage2D, glBindTexture, log, new,
        GRID_WIDTH, GRID_HEIGHT]

theorem updateGeneration_wellFormed (s : ConwayGameOfLife) (h : WellFormed s) :
    WellFormed (updateGeneration s) := by
  obtain ⟨hsz, hc⟩ := h
  constructor
  · intro i hi
    rw [updateGeneration_textures]
    by_cases hib : i = 1 - s.current_texture
    · subst hib
      rw [Function.update_same]
      exact hsz _ hi
    · rw [Function.update_noteq hib]
      exact hsz i hi
  · rw [updateGeneration_current_texture]; omega

theorem randomizeGrid_wellFormed (dis : Nat → Fin 2) (s : ConwayGameOfLife) (h : WellFormed s) :
    WellFormed (randomizeGrid dis s) := by
  obtain ⟨hsz, hc⟩ := h
  have hcur := hsz s.current_texture hc
  constructor
  · intro i hi
    rw [randomizeGrid_textures dis s hcur.1 hcur.2]
    by_cases hib : i = s.current_texture
    · subst hib
      rw [Function.update_same]
      exact hcur
    · rw [Function.update_noteq hib]
      exact hsz i hi
  · rw [randomizeGrid_current_texture]; exact hc

theorem render_wellFormed (s : ConwayGameOfLife) (h : WellFormed s) : WellFormed (render s) := by
  unfold WellFormed
  rw [render_textures, render_current_texture]
  exact h

theorem reachable_wellFormed {s : ConwayGameOfLife} (h : Reachable s) : WellFormed s := by
  induction h with
  | setup undef dis => exact setupTextures_wellFormed undef dis
  | step _ ih => exact updateGeneration_wellFormed _ ih
  | reset dis _ ih => exact randomizeGrid_wellFormed dis _ ih
  | draw _ ih => exact render_wellFormed _ ih

theorem afterOneStep_reachable : Reachable afterOneStep := Reachable.step (Reachable.setup _ _)

theorem golStep_data (f f' b b' : Image) (hw : f.width = f'.width) (hh : f.height = f'.height)
    (hd : ∀ x y : Int, 0 ≤ x → x < f.width → 0 ≤ y → y < f.height → f.data x y = f'.data x y)
    (hb : b.width = f.width ∧ b.height = f.height)
    (hb' : b'.width = f.width ∧ b'.height = f.height)
    (x y : Int) (hx0 : 0 ≤ x) (hx : x < f.width) (hy0 : 0 ≤ y) (hy : y < f.height) :
    (golStep f b).data x y = (golStep f' b').data x y := by
  have hm := golMain_congr f f' hw hh hd
  obtain ⟨v, hv⟩ := golMain_isSome f x y hx hy
  have hgx := (numGroups_bounds f.width (by omega)).1
  have hgy := (numGroups_bounds f.height (by omega)).1
  have hi : invoked (numGroups f.width WORK_GROUP_SIZE) (numGroups f.height WORK_GROUP_SIZE)
      (x, y) := by
    simp only [invoked, LOCAL_SIZE, WORK_GROUP_SIZE]
    omega
  have hc : invoked (numGroups f.width WORK_GROUP_SIZE) (numGroups f.height WORK_GROUP_SIZE)
      (x, y) ∧ x < b.width ∧ y < b.height := ⟨hi, by omega, by omega⟩
  have hc' : invoked (numGroups f.width WORK_GROUP_SIZE) (numGroups f.height WORK_GROUP_SIZE)
      (x, y) ∧ x < b'.width ∧ y < b'.height := ⟨hi, by omega, by omega⟩
  simp only [golStep, dispatch, ← hw, ← hh, ← hm, if_pos hc, if_pos hc', hv]

/-! ## The simulation state -/

/-- C1: from the state a reset leaves, `N` calls of `updateGeneration` leave `generation`
equal to `N`, and every call of `updateGeneration` adds exactly one to `generation`. -/
theorem generation_counts_steps (dis : Nat → Fin 2) (s : ConwayGameOfLife) (N : Nat) :
    (updateGeneration^[N] (randomizeGrid dis s)).generation = N ∧
    ∀ t : ConwayGameOfLife, (updateGeneration t).generation = t.generation + 1 := by
  refine ⟨?_, updateGeneration_generation⟩
  rw [iterate_generation, randomizeGrid_generation]; simp

/-- C2: a call of `updateGeneration` binds `current_texture` to image unit 0 for reading
and `1 - current_texture` to image unit 1 for writing, the two indices differ, the dispatch
writes the second texture from the first and leaves the first as it was, and the index
written by one step is the index read by the next. -/
theorem step_reads_front_writes_back (s : ConwayGameOfLife) :
    readIndex (updateGeneration s) = some s.current_texture ∧
    writeIndex (updateGeneration s) = some (1 - s.current_texture) ∧
    readIndex (updateGeneration s) ≠ writeIndex (updateGeneration s) ∧
    (updateGeneration s).textures (1 - s.current_texture) =
      dispatch (golMain (s.textures s.current_texture)) 32 32
        (s.textures (1 - s.current_texture)) ∧
    (updateGeneration s).textures s.current_texture = s.textures s.current_texture ∧
    ∀ N : Nat,
      writeIndex (updateGeneration^[N + 1] s) = readIndex (updateGeneration^[N + 2] s) := by
  refine ⟨readIndex_updateGeneration s, writeIndex_updateGeneration s, ?_, ?_, ?_, ?_⟩
  · rw [readIndex_updateGeneration, writeIndex_updateGeneration]
    intro h
    exact front_ne_back _ (Option.some.inj h)
  · rw [updateGeneration_textures, Function.update_same]
  · rw [updateGeneration_textures, Function.update_noteq (front_ne_back _)]
  · intro N
    simp only [Function.iterate_succ_apply', writeIndex_updateGeneration,
      readIndex_updateGeneration, updateGeneration_current_texture]

/-- C3, as the code has it: from a reachable state `randomizeGrid` overwrites every cell of
the front texture `textures[current_texture]` with the freshly drawn state, leaves the other
texture and `current_texture` as they were and sets `generation` to 0; a second call in a
row again leaves `current_texture` as it was and `generation` at 0. -/
theorem reset_overwrites_front (dis : Nat → Fin 2) (s : ConwayGameOfLife) (h : Reachable s) :
    (randomizeGrid dis s).current_texture = s.current_texture ∧
    (randomizeGrid dis s).generation = 0 ∧
    (∀ x y : Int, 0 ≤ x → x < GRID_WIDTH → 0 ≤ y → y < GRID_HEIGHT →
      ((randomizeGrid dis s).textures s.current_texture).data x y = randomTexel dis x y) ∧
    (randomizeGrid dis s).textures (1 - s.current_texture) = s.textures (1 - s.current_texture) ∧
    ∀ dis2 : Nat → Fin 2,
      (randomizeGrid dis2 (randomizeGrid dis s)).current_texture = s.current_texture ∧
      (randomizeGrid dis2 (randomizeGrid dis s)).generation = 0 := by
  have hwf := reachable_wellFormed h
  have hcur := hwf.1 s.current_texture hwf.2
  refine ⟨randomizeGrid_current_texture dis s, randomizeGrid_generation dis s, ?_, ?_, ?_⟩
  · intro x y hx0 hx1 hy0 hy1
    rw [randomizeGrid_textures dis s hcur.1 hcur.2, Function.update_same]
    simp only [hx0, hx1, hy0, hy1, and_self, if_true]
    exact randomState_texel dis x y hx0 hy0
  · rw [randomizeGrid_textures dis s hcur.1 hcur.2,
      Function.update_noteq (Ne.symm (front_ne_back _))]
  · intro dis2
    exact ⟨by rw [randomizeGrid_current_texture, randomizeGrid_current_texture],
      randomizeGrid_generation dis2 _⟩

/-- Witness of `reset_overwrites_front` at the state reached by one step. -/
theorem reset_overwrites_front_witness :
    Reachable afterOneStep ∧
    (randomizeGrid (fun _ => 1) afterOneStep).current_texture = afterOneStep.current_texture ∧
    (randomizeGrid (fun _ => 1) afterOneStep).generation = 0 :=
  ⟨afterOneStep_reachable,
    (reset_overwrites_front (fun _ => 1) afterOneStep afterOneStep_reachable).1,
    (reset_overwrites_front (fun _ => 1) afterOneStep afterOneStep_reachable).2.1⟩

/-- C3 as stated fails after one step: the state is reachable, a reset there leaves
`current_texture = 1`, leaves `textures[0]` as it was, and cell (0, 0) of `textures[0]` is
not the freshly drawn one. -/
theorem reset_after_one_step_front_is_B :
    Reachable afterOneStep ∧
    (randomizeGrid (fun _ => 1) afterOneStep).current_texture = 1 ∧
    (randomizeGrid (fun _ => 1) afterOneStep).textures 0 = afterOneStep.textures 0 ∧
    ((randomizeGrid (fun _ => 1) afterOneStep).textures 0).data 0 0 ≠
      randomTexel (fun _ => 1) 0 0 := by
  have hc : afterOneStep.current_texture = 1 := by
    unfold afterOneStep
    rw [updateGeneration_current_texture]
    simp [setupTextures, glTexImage2D, glTexSubImage2D, glBindTexture, log, new,
        GRID_WIDTH, GRID_HEIGHT]
  have hwf := reachable_wellFormed afterOneStep_reachable
  have hcur := hwf.1 afterOneStep.current_texture hwf.2
  have ht : (randomizeGrid (fun _ => 1) afterOneStep).textures 0 = afterOneStep.textures 0 := by
    rw [randomizeGrid_textures _ _ hcur.1 hcur.2, hc, Function.update_noteq (by decide)]
  refine ⟨afterOneStep_reachable, ?_, ht, ?_⟩
  · rw [randomizeGrid_current_texture, hc]
  · decide!

end ConwayGameOfLife

/-- C4: for every dimension `d ≥ 1` the group count `g = (d + 16 - 1) / 16` of the dispatch
sites satisfies `16 * g ≥ d` and `16 * (g - 1) < d`; the spelling `(d + 15) / 16` of the ray
tracer and Mandelbrot sites is the same count; 800 gives 50 and 801 gives 51. -/
theorem numGroups_covers (d : Int) (hd : 1 ≤ d) :
    16 * numGroups d 16 ≥ d ∧ 16 * (numGroups d 16 - 1) < d ∧
    (d + 15).tdiv 16 = numGroups d 16 ∧
    numGroups 800 16 = 50 ∧ numGroups 801 16 = 51 := by
  refine ⟨(numGroups_bounds d hd).1, (numGroups_bounds d hd).2, ?_, by decide, by decide⟩
  unfold numGroups
  congr 1
  omega

/-- Witness of `numGroups_covers` at the grid width 512 of the Conway demo. -/
theorem numGroups_covers_witness :
    (1 : Int) ≤ 512 ∧ 16 * numGroups 512 16 ≥ 512 ∧ 16 * (numGroups 512 16 - 1) < 512 :=
  ⟨by decide, (numGroups_covers 512 (by decide)).1, (numGroups_covers 512 (by decide)).2.1⟩

/-! ## The Game of Life kernel -/

namespace ConwayGameOfLife

theorem blinker_canonical :
    (golStep blinker blank4).rows ≠ blinker.rows ∧
    (golStep (golStep blinker blank4) blank4).rows = blinker.rows := by
  constructor <;> decide!

/-- C5: on the 4 x 4 torus holding the blinker in row 1, columns 0..2, one step of the
kernel gives a grid that differs from the initial one and two steps give the initial grid
again, whatever the two back buffers of extent 4 x 4 held before. -/
theorem blinker_period_two (b1 b2 : Image) (h1 : b1.width = 4 ∧ b1.height = 4)
    (h2 : b2.width = 4 ∧ b2.height = 4) :
    (golStep blinker b1).rows ≠ blinker.rows ∧
    (golStep (golStep blinker b1) b2).rows = blinker.rows := by
  have hw1 : (golStep blinker b1).width = (golStep blinker blank4).width := h1.1
  have hh1 : (golStep blinker b1).height = (golStep blinker blank4).height := h1.2
  have hd1 : ∀ x y : Int, 0 ≤ x → x < (golStep blinker b1).width → 0 ≤ y →
      y < (golStep blinker b1).height →
      (golStep blinker b1).data x y = (golStep blinker blank4).data x y := by
    intro x y hx0 hx hy0 hy
    have hx' : x < b1.width := hx
    have hy' : y < b1.height := hy
    rw [h1.1] at hx'
    rw [h1.2] at hy'
    exact golStep_data blinker blinker b1 blank4 rfl rfl (fun _ _ _ _ _ _ => rfl) h1
      ⟨rfl, rfl⟩ x y hx0 hx' hy0 hy'
  have e1 : (golStep blinker b1).rows = (golStep blinker blank4).rows :=
    rows_congr _ _ hw1 hh1 hd1
  have e2 : (golStep (golStep blinker b1) b2).rows =
      (golStep (golStep blinker blank4) blank4).rows := by
    have hw2 : (golStep (golStep blinker b1) b2).width =
        (golStep (golStep blinker blank4) blank4).width := h2.1
    have hh2 : (golStep (golStep blinker b1) b2).height =
        (golStep (golStep blinker blank4) blank4).height := h2.2
    apply rows_congr _ _ hw2 hh2
    intro x y hx0 hx hy0 hy
    have hx' : x < b2.width := hx
    have hy' : y < b2.height := hy
    rw [h2.1] at hx'
    rw [h2.2] at hy'
    have hx'' : x < (golStep blinker b1).width := by
      show x < b1.width
      rw [h1.1]; exact hx'
    have hy'' : y < (golStep blinker b1).height := by
      show y < b1.height
      rw [h1.2]; exact hy'
    exact golStep_data _ _ b2 blank4 hw1 hh1 hd1 ⟨h2.1.trans h1.1.symm, h2.2.trans h1.2.symm⟩
      ⟨h1.1.symm, h1.2.symm⟩ x y hx0 hx'' hy0 hy''
  rw [e1, e2]
  exact blinker_canonical

/-- Witness of `blinker_period_two` with two unwritten back buffers. -/
theorem blinker_period_two_witness :
    (blank4.width = 4 ∧ blank4.height = 4) ∧
    (golStep blinker blank4).rows ≠ blinker.rows ∧
    (golStep (golStep blinker blank4) blank4).rows = blinker.rows :=
  ⟨⟨rfl, rfl⟩, blinker_period_two blank4 blank4 ⟨rfl, rfl⟩ ⟨rfl, rfl⟩⟩

end ConwayGameOfLife

theorem wrap_coord (w x d : Int) (hw : 1 ≤ w) (hx0 : 0 ≤ x) (hx : x < w)
    (hd : d = -1 ∨ d = 0 ∨ d = 1) :
    (x + d + w).tmod w = (x + d) % w ∧
    (x + d) % w = (if x + d < 0 then w - 1 else if w ≤ x + d then 0 else x + d) := by
  have h0 : 0 ≤ x + d + w := by omega
  refine ⟨by rw [Int.tmod_eq_emod h0 (by omega), Int.add_emod_self], ?_⟩
  by_cases hneg : x + d < 0
  · rw [if_pos hneg]
    have : x + d = (w - 1) + (-1) * w := by omega
    rw [this, Int.add_mul_emod_self]
    exact Int.emod_eq_of_lt (by omega) (by omega)
  · rw [if_neg hneg]
    by_cases hge : w ≤ x + d
    · rw [if_pos hge]
      have : x + d = w := by omega
      rw [this, Int.emod_self]
    · rw [if_neg hge]
      exact Int.emod_eq_of_lt (by omega) (by omega)

/-- C6: for an extent `(w, h)` with `w, h ≥ 1`, an in-bounds cell `(x, y)` and offsets
`dx, dy` in {-1, 0, 1}, the neighbour coordinate the kernel computes lies in
`[0, w) x [0, h)` and is `((x + dx) mod w, (y + dy) mod h)`: the plain neighbour inside the
grid, column `w - 1` to the left of column 0, column 0 to the right of column `w - 1`, and
the same for rows. -/
theorem neighbour_wraps (w h x y dx dy : Int) (hw : 1 ≤ w) (hh : 1 ≤ h)
    (hx0 : 0 ≤ x) (hx : x < w) (hy0 : 0 ≤ y) (hy : y < h)
    (hdx : dx = -1 ∨ dx = 0 ∨ dx = 1) (hdy : dy = -1 ∨ dy = 0 ∨ dy = 1) :
    (0 ≤ (golNeighbor (w, h) (x, y) dx dy).1 ∧ (golNeighbor (w, h) (x, y) dx dy).1 < w ∧
      0 ≤ (golNeighbor (w, h) (x, y) dx dy).2 ∧ (golNeighbor (w, h) (x, y) dx dy).2 < h) ∧
    golNeighbor (w, h) (x, y) dx dy = ((x + dx) % w, (y + dy) % h) ∧
    (golNeighbor (w, h) (x, y) dx dy).1 =
      (if x + dx < 0 then w - 1 else if w ≤ x + dx then 0 else x + dx) ∧
    (golNeighbor (w, h) (x, y) dx dy).2 =
      (if y + dy < 0 then h - 1 else if h ≤ y + dy then 0 else y + dy) ∧
    (golNeighbor (w, h) (0, y) (-1) dy).1 = w - 1 ∧
    (golNeighbor (w, h) (w - 1, y) 1 dy).1 = 0 ∧
    (golNeighbor (w, h) (x, 0) dx (-1)).2 = h - 1 ∧
    (golNeighbor (w, h) (x, h - 1) dx 1).2 = 0 := by
  have hX := wrap_coord w x dx hw hx0 hx hdx
  have hY := wrap_coord h y dy hh hy0 hy hdy
  have hL := wrap_coord w 0 (-1) hw (le_refl 0) (by omega) (Or.inl rfl)
  have hR := wrap_coord w (w - 1) 1 hw (by omega) (by omega) (Or.inr (Or.inr rfl))
  have hT := wrap_coord h 0 (-1) hh (le_refl 0) (by omega) (Or.inl rfl)
  have hB := wrap_coord h (h - 1) 1 hh (by omega) (by omega) (Or.inr (Or.inr rfl))
  simp only [golNeighbor]
  refine ⟨?_, by rw [hX.1, hY.1], by rw [hX.1, hX.2], by rw [hY.1, hY.2], ?_, ?_, ?_, ?_⟩
  · rw [hX.1, hX.2, hY.1, hY.2]
    split_ifs <;> omega
  · rw [hL.1, hL.2]; split_ifs <;> omega
  · rw [hR.1, hR.2]; split_ifs <;> omega
  · rw [hT.1, hT.2]; split_ifs <;> omega
  · rw [hB.1, hB.2]; split_ifs <;> omega

/-- Witness of `neighbour_wraps` at a corner of the 512 x 512 grid. -/
theorem neighbour_wraps_witness :
    golNeighbor (512, 512) (0, 511) (-1) 1 = ((0 + -1) % 512, (511 + 1) % 512) :=
  (neighbour_wraps 512 512 0 511 (-1) 1 (by decide) (by decide) (by decide) (by decide)
    (by decide) (by decide) (Or.inl rfl) (Or.inr (Or.inr rfl))).2.1

/-! ## Bounds checks of the kernels -/

theorem guarded_kernels_return_early {Color : Type} (size gid : Int × Int)
    (h : gid.1 ≥ size.1 ∨ gid.2 ≥ size.2) :
    (∀ img : Image, imageSize img = size → golMain img gid = none) ∧
    (∀ trace : Int × Int → Int × Int → Color, rayTracerMain trace size gid = none) ∧
    (∀ wave : Int × Int → Int × Int → Color, waveMain wave size gid = none) ∧
    (∀ (escapes : Int × Int → Int × Int → Int → Bool)
        (palette : Int × Int → Int × Int → Int → Color) (black : Color),
      mandelbrotMain escapes palette black size gid = none) := by
  refine ⟨?_, ?_, ?_, ?_⟩
  · intro img hs
    simp only [golMain, hs, if_pos h]
  · intro trace
    simp only [rayTracerMain, if_pos h]
  · intro wave
    simp only [waveMain, if_pos h]
  · intro escapes palette black
    simp only [mandelbrotMain, if_pos h]

/-- C7, where the code departs from it: the dispatch of 50 x 38 groups of the minimal test
invokes the id (0, 600), whose `y` is not below the height 600 of the 800 x 600 target, and
the kernel of the minimal test reaches its `imageStore` there. -/
theorem minimal_kernel_stores_out_of_bounds :
    invoked 50 38 (0, 600) ∧ ((0, 600) : Int × Int).2 ≥ ((800, 600) : Int × Int).2 ∧
    minimalMain red (0, 600) = some red := by
  refine ⟨by decide, by decide, rfl⟩

/-! ## Building programs -/

theorem compileStages_spec (c : Compiler) (program : Nat) :
    ∀ (stages attached : List Stage) (g : ShaderGL),
      ((compileStages c program stages attached g).1 =
        if ∀ st ∈ stages, c.compileStatus st = true then some (attached ++ stages) else none) ∧
      ∃ X, (compileStages c program stages attached g).2.calls = g.calls ++ X ∧
        linkAttempted X = false := by
  intro stages
  induction stages with
  | nil =>
    intro attached g
    exact ⟨by simp [compileStages], [], by simp [compileStages], rfl⟩
  | cons st rest ih =>
    intro attached g
    obtain ⟨ty, src⟩ := st
    by_cases hc : c.compileStatus (ty, src) = true
    · obtain ⟨ih1, X, hX, hL⟩ := ih (attached ++ [(ty, src)])
        ((((((g.glCreateShader ty).2.log (.glShaderSource g.next src)).log
          (.glCompileShader g.next)).log (.glAttachShader program g.next)).log
          (.glDeleteShader g.next)))
      constructor
      · simp only [compileStages, hc, ShaderGL.glCreateShader] at ih1 ⊢
        simp only [Bool.not_true, Bool.false_eq_true, if_false]
        rw [ih1]
        simp only [List.forall_mem_cons, hc, true_and, List.append_assoc, List.singleton_append]
      · simp only [compileStages, hc, ShaderGL.glCreateShader] at hX ⊢
        simp only [Bool.not_true, Bool.false_eq_true, if_false]
        rw [hX]
        refine ⟨[.glCreateShader ty g.next, .glShaderSource g.next src, .glCompileShader g.next,
          .glAttachShader program g.next, .glDeleteShader g.next] ++ X, ?_, ?_⟩
        · simp [ShaderGL.log]
        · simp only [linkAttempted, List.any_append, List.any_cons, List.any_nil] at hL ⊢
          simp [hL]
    · have hc' : c.compileStatus (ty, src) = false := by simpa using hc
      constructor
      · simp [compileStages, hc']
      · simp only [compileStages, hc', ShaderGL.glCreateShader]
        refine ⟨[.glCreateShader ty g.next, .glShaderSource g.next src, .glCompileShader g.next,
          .glGetShaderInfoLog g.next], ?_, ?_⟩
        · simp [ShaderGL.log]
        · simp [linkAttempted]

theorem compileGLSLProgram_fail (c : Compiler) (stages : List Stage) (g : ShaderGL)
    (h : ¬ ∀ st ∈ stages, c.compileStatus st = true) :
    (compileGLSLProgram c stages g).1 = 0 ∧
    linkAttempted ((compileGLSLProgram c stages g).2.calls.drop g.calls.length) = false := by
  obtain ⟨h1, X, hX, hL⟩ := compileStages_spec c g.next stages [] (g.glCreateProgram).2
  rw [if_neg h] at h1
  simp only [compileGLSLProgram, ShaderGL.glCreateProgram] at h1 hX ⊢
  generalize compileStages c g.next stages []
    { next := g.next + 1, calls := g.calls ++ [ShaderCall.glCreateProgram g.next] } = r at h1 hX
  obtain ⟨r1, r2⟩ := r
  simp only at h1 hX
  subst h1
  simp only [hX, List.append_assoc, List.drop_left, true_and]
  simp only [linkAttempted, List.any_append, List.any_cons, List.any_nil] at hL ⊢
  simp [hL]

theorem compileGLSLProgram_ok (c : Compiler) (stages : List Stage) (g : ShaderGL)
    (h : ∀ st ∈ stages, c.compileStatus st = true) :
    (compileGLSLProgram c stages g).1 = if c.linkStatus stages then g.next else 0 := by
  obtain ⟨h1, -⟩ := compileStages_spec c g.next stages [] (g.glCreateProgram).2
  rw [if_pos h] at h1
  simp only [compileGLSLProgram, ShaderGL.glCreateProgram] at h1 ⊢
  generalize compileStages c g.next stages []
    { next := g.next + 1, calls := g.calls ++ [ShaderCall.glCreateProgram g.next] } = r at h1
  obtain ⟨r1, r2⟩ := r
  simp only at h1
  subst h1
  simp only [List.nil_append]
  by_cases hl : c.linkStatus stages = true
  · simp [hl]
  · have hl' : c.linkStatus stages = false := by simpa using hl
    simp [hl']

/-- C8: `compileGLSLProgram` returns 0 when some stage fails to compile, and then issues no
`glLinkProgram`; it returns 0 when every stage compiles and the link fails; it returns the
handle `glCreateProgram` gave when every stage compiles and the link succeeds, and a
non-zero result is that handle with every stage compiled and the link successful.  With a
valid vertex stage and an invalid fragment stage the result is 0. -/
theorem compileGLSLProgram_result (c : Compiler) (stages : List Stage) (g : ShaderGL) :
    ((∃ st ∈ stages, c.compileStatus st = false) →
      (compileGLSLProgram c stages g).1 = 0 ∧
      linkAttempted ((compileGLSLProgram c stages g).2.calls.drop g.calls.length) = false) ∧
    ((∀ st ∈ stages, c.compileStatus st = true) → c.linkStatus stages = false →
      (compileGLSLProgram c stages g).1 = 0) ∧
    ((∀ st ∈ stages, c.compileStatus st = true) → c.linkStatus stages = true →
      (compileGLSLProgram c stages g).1 = (g.glCreateProgram).1) ∧
    ((compileGLSLProgram c stages g).1 ≠ 0 →
      (∀ st ∈ stages, c.compileStatus st = true) ∧ c.linkStatus stages = true ∧
      (compileGLSLProgram c stages g).1 = (g.glCreateProgram).1) ∧
    (∀ vertex_source fragment_source : String,
      c.compileStatus (.GL_VERTEX_SHADER, vertex_source) = true →
      c.compileStatus (.GL_FRAGMENT_SHADER, fragment_source) = false →
      (compileGLSLProgram c
        [(.GL_VERTEX_SHADER, vertex_source), (.GL_FRAGMENT_SHADER, fragment_source)] g).1
        = 0) := by
  refine ⟨?_, ?_, ?_, ?_, ?_⟩
  · rintro ⟨st, hst, hf⟩
    apply compileGLSLProgram_fail
    intro hall
    rw [hall st hst] at hf
    exact Bool.noConfusion hf
  · intro hall hl
    rw [compileGLSLProgram_ok c stages g hall, hl]
    rfl
  · intro hall hl
    rw [compileGLSLProgram_ok c stages g hall, hl]
    rfl
  · intro hne
    by_cases hall : ∀ st ∈ stages, c.compileStatus st = true
    · rw [compileGLSLProgram_ok c stages g hall] at hne ⊢
      cases hl : c.linkStatus stages
      · rw [hl] at hne
        exact absurd rfl hne
      · exact ⟨hall, rfl, rfl⟩
    · exact absurd (compileGLSLProgram_fail c stages g hall).1 hne
  · intro v f _ hf
    apply (compileGLSLProgram_fail c _ g _).1
    intro hall
    rw [hall (.GL_FRAGMENT_SHADER, f) (by simp)] at hf
    exact Bool.noConfusion hf

/-- Witness of `compileGLSLProgram_result`: a vertex stage that compiles and a fragment
stage that does not. -/
theorem compileGLSLProgram_result_witness :
    strictCompiler.compileStatus (.GL_VERTEX_SHADER, "in vec2 position;") = true ∧
    strictCompiler.compileStatus (.GL_FRAGMENT_SHADER, "syntax error") = false ∧
    (compileGLSLProgram strictCompiler
      [(.GL_VERTEX_SHADER, "in vec2 position;"), (.GL_FRAGMENT_SHADER, "syntax error")]
      freshGL).1 = 0 :=
  ⟨by decide, by decide,
    (compileGLSLProgram_result strictCompiler
      [(.GL_VERTEX_SHADER, "in vec2 position;"), (.GL_FRAGMENT_SHADER, "syntax error")]
      freshGL).2.2.2.2 "in vec2 position;" "syntax error" (by decide) (by decide)⟩

/-- C9, where the code departs from it: when the fragment stage fails to compile,
`compileGLSLProgram` returns with the fragment shader object 3 created and never deleted,
and `compileComputeShader` on a source that fails to compile returns with its shader
object 1 never deleted; when both stages compile and link, no shader object is left. -/
theorem compile_failure_leaks_shader :
    leakedShaders (compileGLSLProgram strictCompiler
      [(.GL_VERTEX_SHADER, "in vec2 position;"), (.GL_FRAGMENT_SHADER, "syntax error")]
      freshGL).2.calls = [3] ∧
    leakedShaders (compileComputeShader strictCompiler "syntax error" freshGL).2.calls = [1] ∧
    leakedShaders (compileGLSLProgram strictCompiler
      [(.GL_VERTEX_SHADER, "in vec2 position;"), (.GL_FRAGMENT_SHADER, "out vec4 fragColor;")]
      freshGL).2.calls = [] := by
  refine ⟨?_, ?_, ?_⟩ <;> decide

/-! ## Step timing of the frame loop -/

namespace RunLoop

theorem sub32_self (a : Nat) : sub32 a a = 0 := by
  unfold sub32
  rw [Nat.add_sub_cancel_left]
  exact Nat.mod_self _

theorem frame_last_update (events : List (SDL_Event × (Nat → Fin 2))) (current_time : Nat)
    (st : RunLoop) :
    (frame events current_time st).last_update =
      (update (pollEvents st events) current_time).last_update := by
  simp only [frame]

theorem frame_game (events : List (SDL_Event × (Nat → Fin 2))) (current_time : Nat)
    (st : RunLoop) :
    (frame events current_time st).game =
      (update (pollEvents st events) current_time).game.render := by
  simp only [frame]

theorem frame_of_stepDue (events : List (SDL_Event × (Nat → Fin 2))) (current_time : Nat)
    (st : RunLoop) (hdue : stepDue (pollEvents st events) current_time = true) :
    (frame events current_time st).game =
      (pollEvents st events).game.updateGeneration.render ∧
    (frame events current_time st).last_update = current_time := by
  have hu : update (pollEvents st events) current_time =
      { pollEvents st events with
        game := (pollEvents st events).game.updateGeneration, last_update := current_time } := by
    simp only [update, hdue, if_true]
  exact ⟨by rw [frame_game, hu], by rw [frame_last_update, hu]⟩

/-- C10, as the code has it: when an iteration of the frame loop takes a step (the run is
not paused and the time owed is at least `update_interval`), `generation` grows by one,
`last_update` becomes `current_time`, and the time owed right after the step is 0,
whatever it was before. -/
theorem step_resets_time_owed (events : List (SDL_Event × (Nat → Fin 2))) (current_time : Nat)
    (st : RunLoop) (hdue : stepDue (pollEvents st events) current_time = true) :
    (frame events current_time st).game.generation =
      (pollEvents st events).game.generation + 1 ∧
    (frame events current_time st).last_update = current_time ∧
    owed (frame events current_time st) current_time = 0 := by
  obtain ⟨hg, hl⟩ := frame_of_stepDue events current_time st hdue
  refine ⟨?_, hl, ?_⟩
  · rw [hg, ConwayGameOfLife.render_generation, ConwayGameOfLife.updateGeneration_generation]
  · unfold owed
    rw [hl]
    exact sub32_self current_time

/-- Witness of `step_resets_time_owed`: 200 ms after the loop started at tick 0. -/
theorem step_resets_time_owed_witness :
    stepDue (pollEvents startedAtZero []) 200 = true ∧
    owed (frame [] 200 startedAtZero) 200 = 0 :=
  ⟨by decide, (step_resets_time_owed [] 200 startedAtZero (by decide)).2.2⟩

/-- C10 as stated fails 200 ms after the start: the time owed is 200, at least
`update_interval`, a step is taken, and the time owed after it is not 200 - 160. -/
theorem step_drops_remainder :
    owed (pollEvents startedAtZero []) 200 = 200 ∧
    owed (pollEvents startedAtZero []) 200 ≥ update_interval ∧
    stepDue (pollEvents startedAtZero []) 200 = true ∧
    owed (frame [] 200 startedAtZero) 200 ≠
      owed (pollEvents startedAtZero []) 200 - update_interval := by
  have h0 : owed (frame [] 200 startedAtZero) 200 = 0 := by
    unfold owed
    rw [(frame_of_stepDue [] 200 startedAtZero (by decide)).2]
    exact sub32_self 200
  refine ⟨by decide, by decide, by decide, ?_⟩
  rw [h0]
  decide

end RunLoop

/-! ## Call lists of the Conway demo -/

namespace ConwayGameOfLife

theorem randomizeGrid_calls (dis : Nat → Fin 2) (s : ConwayGameOfLife) :
    (randomizeGrid dis s).calls = s.calls ++
      [.glBindTexture s.current_texture, .glTexSubImage2D GRID_WIDTH GRID_HEIGHT] := by
  simp only [randomizeGrid, glTexSubImage2D, glBindTexture, log]
  split <;> simp

theorem randomizeGrid_imageUnit (dis : Nat → Fin 2) (s : ConwayGameOfLife) :
    (randomizeGrid dis s).imageUnit = s.imageUnit := by
  simp only [randomizeGrid, glTexSubImage2D, glBindTexture, log]
  split <;> rfl

theorem randomizeGrid_boundTexture (dis : Nat → Fin 2) (s : ConwayGameOfLife) :
    (randomizeGrid dis s).boundTexture = some s.current_texture := by
  simp only [randomizeGrid, glTexSubImage2D, glBindTexture, log]
  split <;> rfl

theorem updateGeneration_boundTexture (s : ConwayGameOfLife) :
    (updateGeneration s).boundTexture = s.boundTexture := by
  simp only [updateGeneration, swapTextures, glMemoryBarrier, log, glDispatchCompute]
  split <;> rfl

theorem render_calls (s : ConwayGameOfLife) :
    (render s).calls = s.calls ++
      [.glBindFramebuffer, .glViewport, .glClear, .glActiveTexture,
       .glBindTexture s.current_texture, .glUseProgram .display_program, .glUniform1i,
       .glBindVertexArray, .glDrawArrays 0 4, .MGLswapBuffers] := by
  simp [render, glBindTexture, glUseProgram, log]

theorem render_imageUnit (s : ConwayGameOfLife) : (render s).imageUnit = s.imageUnit := by
  simp only [render, glBindTexture, glUseProgram, log]

theorem render_boundTexture (s : ConwayGameOfLife) :
    (render s).boundTexture = some s.current_texture := by
  simp only [render, glBindTexture, glUseProgram, log]

theorem setupTextures_calls (undef : Int → Int → Int → Texel) (dis : Nat → Fin 2) :
    (setupTextures undef dis new).calls =
      [.glBindTexture 0, .glTexImage2D GRID_WIDTH GRID_HEIGHT,
       .glBindTexture 1, .glTexImage2D GRID_WIDTH GRID_HEIGHT,
       .glBindTexture 0, .glTexSubImage2D GRID_WIDTH GRID_HEIGHT] := by
  simp [setupTextures, glTexImage2D, glTexSubImage2D, glBindTexture, log, new,
    GRID_WIDTH, GRID_HEIGHT]

theorem setupTextures_fields (undef : Int → Int → Int → Texel) (dis : Nat → Fin 2) :
    (setupTextures undef dis new).current_texture = 0 ∧
    (setupTextures undef dis new).generation = 0 ∧
    (setupTextures undef dis new).imageUnit 1 = none ∧
    (setupTextures undef dis new).boundTexture = some 0 := by
  simp [setupTextures, glTexImage2D, glTexSubImage2D, glBindTexture, log, new,
    GRID_WIDTH, GRID_HEIGHT]


end ConwayGameOfLife

theorem hazardFree_append (a b : List CallKind) :
    ∀ pending : Bool,
      hazardFree pending (a ++ b) = (hazardFree pending a).bind fun q => hazardFree q b := by
  induction a with
  | nil => intro pending; rfl
  | cons k rest ih =>
    intro pending
    cases k <;> cases pending <;> simp [hazardFree, ih]

namespace ConwayGameOfLife

theorem reachable_hazardFree {s : ConwayGameOfLife} (h : Reachable s) :
    hazardFree false (s.calls.map GLCall.kind) = some false := by
  induction h with
  | setup undef dis =>
    rw [setupTextures_calls]
    rfl
  | @step s _ ih =>
    rw [updateGeneration_calls, List.map_append, hazardFree_append, ih]
    rfl
  | @reset s dis _ ih =>
    rw [randomizeGrid_calls, List.map_append, hazardFree_append, ih]
    rfl
  | @draw s _ ih =>
    rw [render_calls, List.map_append, hazardFree_append, ih]
    rfl

end ConwayGameOfLife

namespace RunLoop

theorem handleEvent_reachable (st : RunLoop) (e : SDL_Event × (Nat → Fin 2))
    (h : ConwayGameOfLife.Reachable st.game) :
    ConwayGameOfLife.Reachable (handleEvent st e).game := by
  obtain ⟨ev, dis⟩ := e
  cases ev with
  | SDL_QUIT => exact h
  | SDL_KEYDOWN sym =>
    cases sym with
    | SDLK_ESCAPE => exact h
    | SDLK_SPACE => exact h
    | SDLK_r => exact ConwayGameOfLife.Reachable.reset dis h
    | other n => exact h
  | other n => exact h

theorem pollEvents_reachable (events : List (SDL_Event × (Nat → Fin 2))) :
    ∀ st : RunLoop, ConwayGameOfLife.Reachable st.game →
      ConwayGameOfLife.Reachable (pollEvents st events).game := by
  induction events with
  | nil => intro st h; exact h
  | cons e rest ih =>
    intro st h
    exact ih (handleEvent st e) (handleEvent_reachable st e h)

theorem frame_game_cases (events : List (SDL_Event × (Nat → Fin 2))) (current_time : Nat)
    (st : RunLoop) :
    (frame events current_time st).game =
      if stepDue (pollEvents st events) current_time then
        (pollEvents st events).game.updateGeneration.render
      else (pollEvents st events).game.render := by
  rw [frame_game]
  unfold update
  split <;> rfl

theorem frame_reachable (events : List (SDL_Event × (Nat → Fin 2))) (current_time : Nat)
    (st : RunLoop) (h : ConwayGameOfLife.Reachable st.game) :
    ConwayGameOfLife.Reachable (frame events current_time st).game := by
  rw [frame_game_cases]
  have h' := pollEvents_reachable events st h
  split
  · exact ConwayGameOfLife.Reachable.draw (ConwayGameOfLife.Reachable.step h')
  · exact ConwayGameOfLife.Reachable.draw h'


theorem frame_running (events : List (SDL_Event × (Nat → Fin 2))) (current_time : Nat)
    (st : RunLoop) :
    (frame events current_time st).running = (pollEvents st events).running := by
  simp only [frame, update]
  split <;> rfl

theorem frame_paused (events : List (SDL_Event × (Nat → Fin 2))) (current_time : Nat)
    (st : RunLoop) :
    (frame events current_time st).paused = (pollEvents st events).paused := by
  simp only [frame, update]
  split <;> rfl

theorem stepDue_iff (st : RunLoop) (current_time : Nat) :
    stepDue st current_time = true ↔
      st.paused = false ∧ update_interval ≤ owed st current_time := by
  simp [stepDue]

/-- What draining the events keeps of the game: `current_texture`, the number of
dispatches and of draws in the call list, and `generation` unless a reset set it to 0. -/
theorem pollEvents_game (events : List (SDL_Event × (Nat → Fin 2))) :
    ∀ st : RunLoop,
      (pollEvents st events).game.current_texture = st.game.current_texture ∧
      dispatchCount (pollEvents st events).game.calls = dispatchCount st.game.calls ∧
      drawCount (pollEvents st events).game.calls = drawCount st.game.calls ∧
      ((pollEvents st events).game.generation = st.game.generation ∨
        (pollEvents st events).game.generation = 0) ∧
      (pollEvents st events).last_update = st.last_update := by
  induction events with
  | nil => intro st; exact ⟨rfl, rfl, rfl, Or.inl rfl, rfl⟩
  | cons e rest ih =>
    intro st
    obtain ⟨h1, h2, h3, h4, h5⟩ := ih (handleEvent st e)
    have hstep : (handleEvent st e).game.current_texture = st.game.current_texture ∧
        dispatchCount (handleEvent st e).game.calls = dispatchCount st.game.calls ∧
        drawCount (handleEvent st e).game.calls = drawCount st.game.calls ∧
        ((handleEvent st e).game.generation = st.game.generation ∨
          (handleEvent st e).game.generation = 0) ∧
        (handleEvent st e).last_update = st.last_update := by
      obtain ⟨ev, dis⟩ := e
      cases ev with
      | SDL_QUIT => exact ⟨rfl, rfl, rfl, Or.inl rfl, rfl⟩
      | SDL_KEYDOWN sym =>
        cases sym with
        | SDLK_ESCAPE => exact ⟨rfl, rfl, rfl, Or.inl rfl, rfl⟩
        | SDLK_SPACE => exact ⟨rfl, rfl, rfl, Or.inl rfl, rfl⟩
        | SDLK_r =>
          refine ⟨ConwayGameOfLife.randomizeGrid_current_texture dis st.game, ?_, ?_,
            Or.inr (ConwayGameOfLife.randomizeGrid_generation dis st.game), rfl⟩
          · show dispatchCount (ConwayGameOfLife.randomizeGrid dis st.game).calls = _
            rw [ConwayGameOfLife.randomizeGrid_calls]
            simp [dispatchCount, isDispatch]
          · show drawCount (ConwayGameOfLife.randomizeGrid dis st.game).calls = _
            rw [ConwayGameOfLife.randomizeGrid_calls]
            simp [drawCount, isDraw]
        | other n => exact ⟨rfl, rfl, rfl, Or.inl rfl, rfl⟩
      | other n => exact ⟨rfl, rfl, rfl, Or.inl rfl, rfl⟩
    show (pollEvents (handleEvent st e) rest).game.current_texture = _ ∧ _
    refine ⟨h1.trans hstep.1, h2.trans hstep.2.1, h3.trans hstep.2.2.1, ?_, h5.trans hstep.2.2.2.2⟩
    rcases h4 with h4 | h4
    · rcases hstep.2.2.2.1 with h6 | h6
      · exact Or.inl (h4.trans h6)
      · exact Or.inr (h4.trans h6)
    · exact Or.inr h4

theorem pollEvents_without_reset (events : List (SDL_Event × (Nat → Fin 2))) :
    ∀ st : RunLoop, (∀ e ∈ events, e.1 ≠ .SDL_KEYDOWN .SDLK_r) →
      (pollEvents st events).game = st.game := by
  induction events with
  | nil => intro st _; rfl
  | cons e rest ih =>
    intro st hno
    have hrest := ih (handleEvent st e) (fun e' he' => hno e' (List.mem_cons_of_mem _ he'))
    have he : (handleEvent st e).game = st.game := by
      have hne := hno e (List.mem_cons_self _ _)
      obtain ⟨ev, dis⟩ := e
      cases ev with
      | SDL_QUIT => rfl
      | SDL_KEYDOWN sym =>
        cases sym with
        | SDLK_ESCAPE => rfl
        | SDLK_SPACE => rfl
        | SDLK_r => exact absurd rfl hne
        | other n => rfl
      | other n => rfl
    exact hrest.trans he

theorem dispatchCount_updateGeneration (s : ConwayGameOfLife) :
    dispatchCount s.updateGeneration.calls = dispatchCount s.calls + 1 := by
  rw [ConwayGameOfLife.updateGeneration_calls]
  simp [dispatchCount, isDispatch]

theorem dispatchCount_render (s : ConwayGameOfLife) :
    dispatchCount s.render.calls = dispatchCount s.calls := by
  rw [ConwayGameOfLife.render_calls]
  simp [dispatchCount, isDispatch]

/-- The game after an iteration, by whether the step was due. -/
theorem frame_effect (events : List (SDL_Event × (Nat → Fin 2))) (current_time : Nat)
    (st : RunLoop) :
    (stepDue (pollEvents st events) current_time = true →
      (frame events current_time st).game.generation =
        (pollEvents st events).game.generation + 1 ∧
      (frame events current_time st).game.current_texture = 1 - st.game.current_texture ∧
      dispatchCount (frame events current_time st).game.calls =
        dispatchCount st.game.calls + 1) ∧
    (stepDue (pollEvents st events) current_time = false →
      (frame events current_time st).game.generation = (pollEvents st events).game.generation ∧
      (frame events current_time st).game.current_texture = st.game.current_texture ∧
      dispatchCount (frame events current_time st).game.calls = dispatchCount st.game.calls) := by
  obtain ⟨h1, h2, -, -, -⟩ := pollEvents_game events st
  constructor
  · intro hdue
    rw [frame_game_cases, hdue, if_pos rfl]
    refine ⟨?_, ?_, ?_⟩
    · rw [ConwayGameOfLife.render_generation, ConwayGameOfLife.updateGeneration_generation]
    · rw [ConwayGameOfLife.render_current_texture,
        ConwayGameOfLife.updateGeneration_current_texture, h1]
    · rw [dispatchCount_render, dispatchCount_updateGeneration, h2]
  · intro hdue
    rw [frame_game_cases, hdue, if_neg (by simp)]
    refine ⟨?_, ?_, ?_⟩
    · rw [ConwayGameOfLife.render_generation]
    · rw [ConwayGameOfLife.render_current_texture, h1]
    · rw [dispatchCount_render, h2]


theorem startedAtZero_reachable : ConwayGameOfLife.Reachable startedAtZero.game :=
  ConwayGameOfLife.Reachable.setup (fun _ _ _ => ⟨0, 0, 0, 0⟩) (fun _ => 0)

/-- C11: whatever `current_time` is, one iteration of the frame loop adds at most one
dispatch to the call list; the game after it is the rendered game after the events, with at
most one `updateGeneration` in between; `generation` is at most one above what the events
left, and at most one above its value before the iteration when that was not negative. -/
theorem at_most_one_step_per_frame (events : List (SDL_Event × (Nat → Fin 2)))
    (current_time : Nat) (st : RunLoop) :
    dispatchCount (frame events current_time st).game.calls ≤ dispatchCount st.game.calls + 1 ∧
    ((frame events current_time st).game = (pollEvents st events).game.render ∨
      (frame events current_time st).game =
        (pollEvents st events).game.updateGeneration.render) ∧
    (frame events current_time st).game.generation ≤
      (pollEvents st events).game.generation + 1 ∧
    (0 ≤ st.game.generation →
      (frame events current_time st).game.generation ≤ st.game.generation + 1) := by
  obtain ⟨hdue, hnot⟩ := frame_effect events current_time st
  obtain ⟨-, -, -, hgen, -⟩ := pollEvents_game events st
  cases h : stepDue (pollEvents st events) current_time
  · obtain ⟨h1, -, h3⟩ := hnot h
    refine ⟨by omega, Or.inl (by rw [frame_game_cases, h, if_neg (by simp)]), by omega, ?_⟩
    intro h0
    omega
  · obtain ⟨h1, -, h3⟩ := hdue h
    refine ⟨by omega, Or.inr (by rw [frame_game_cases, h, if_pos rfl]), by omega, ?_⟩
    intro h0
    omega

/-- Witness of `at_most_one_step_per_frame`: 4 000 000 000 ms after the start. -/
theorem at_most_one_step_per_frame_witness :
    (0 : Int) ≤ startedAtZero.game.generation ∧
    (frame [] 4000000000 startedAtZero).game.generation ≤ startedAtZero.game.generation + 1 :=
  ⟨by decide, (at_most_one_step_per_frame [] 4000000000 startedAtZero).2.2.2 (by decide)⟩

theorem pollEvents_with_reset (events : List (SDL_Event × (Nat → Fin 2))) :
    ∀ st : RunLoop, (∃ e ∈ events, e.1 = .SDL_KEYDOWN .SDLK_r) →
      (pollEvents st events).game.generation = 0 := by
  induction events with
  | nil => intro st h; obtain ⟨e, he, -⟩ := h; cases he
  | cons e rest ih =>
    intro st h
    by_cases hr : ∃ e' ∈ rest, e'.1 = .SDL_KEYDOWN .SDLK_r
    · exact ih (handleEvent st e) hr
    · have hno : ∀ e' ∈ rest, e'.1 ≠ .SDL_KEYDOWN .SDLK_r := fun e' he' heq => hr ⟨e', he', heq⟩
      have he : e.1 = .SDL_KEYDOWN .SDLK_r := by
        obtain ⟨e', he', heq⟩ := h
        rcases List.mem_cons.1 he' with h1 | h1
        · rw [← h1]; exact heq
        · exact absurd heq (hno e' h1)
      show (pollEvents (handleEvent st e) rest).game.generation = 0
      rw [pollEvents_without_reset rest (handleEvent st e) hno]
      obtain ⟨ev, dis⟩ := e
      simp only at he
      subst he
      exact ConwayGameOfLife.randomizeGrid_generation dis st.game

theorem pollEvents_nil (st : RunLoop) : pollEvents st [] = st := rfl

theorem pollEvents_cons (st : RunLoop) (e : SDL_Event × (Nat → Fin 2))
    (events : List (SDL_Event × (Nat → Fin 2))) :
    pollEvents st (e :: events) = pollEvents (handleEvent st e) events := rfl

theorem frame_set_running (current_time : Nat) (st : RunLoop) (b : Bool) :
    frame [] current_time { st with running := b } =
      { frame [] current_time st with running := b } := by
  simp only [frame, pollEvents, List.foldl, update, stepDue, owed]
  split <;> rfl

theorem pollEvents_running (events : List (SDL_Event × (Nat → Fin 2))) :
    ∀ st : RunLoop, (pollEvents st events).running =
      (st.running && events.all fun e =>
        decide (e.1 ≠ .SDL_QUIT ∧ e.1 ≠ .SDL_KEYDOWN .SDLK_ESCAPE)) := by
  induction events with
  | nil => intro st; simp [pollEvents]
  | cons e rest ih =>
    intro st
    rw [pollEvents_cons, ih, List.all_cons, ← Bool.and_assoc]
    congr 1
    obtain ⟨ev, dis⟩ := e
    cases ev with
    | SDL_QUIT => simp [handleEvent]
    | SDL_KEYDOWN sym => cases sym <;> simp [handleEvent]
    | other n => simp [handleEvent]

theorem pollEvents_paused (events : List (SDL_Event × (Nat → Fin 2))) :
    ∀ st : RunLoop, (pollEvents st events).paused =
      (if (events.countP fun e => decide (e.1 = .SDL_KEYDOWN .SDLK_SPACE)) % 2 = 1
        then !st.paused else st.paused) := by
  induction events with
  | nil => intro st; simp [pollEvents]
  | cons e rest ih =>
    intro st
    rw [pollEvents_cons, ih, List.countP_cons]
    obtain ⟨ev, dis⟩ := e
    have key : ∀ (n : Nat) (b : Bool),
        (if n % 2 = 1 then !(!b) else !b) = (if (n + 1) % 2 = 1 then !b else b) := by
      intro n b
      rcases Nat.mod_two_eq_zero_or_one n with h | h
      · have h2 : (n + 1) % 2 = 1 := by omega
        simp [h, h2]
      · have h2 : (n + 1) % 2 = 0 := by omega
        simp [h, h2]
    cases ev with
    | SDL_QUIT => simp [handleEvent]
    | SDL_KEYDOWN sym =>
      cases sym with
      | SDLK_SPACE => simpa [handleEvent] using key _ st.paused
      | SDLK_ESCAPE => simp [handleEvent]
      | SDLK_r => simp [handleEvent]
      | other n => simp [handleEvent]
    | other n => simp [handleEvent]

/-- C12, as the code has it: an iteration takes a step (one more dispatch, `generation` one
above what the events left) if and only if, the events drained, `paused` is false and
`current_time - last_update` is at least `update_interval`.  When `paused` is true after the
events, whatever `current_time` is, no dispatch is issued and `current_texture` is what it
was before the iteration; `generation` is what the events left, which is its value before
the iteration when no R key press is among the events and 0 when one is, since the reset
of an R key press runs while paused too.  Both are the same for every other value of
`current_time`. -/
theorem step_iff_running_and_due (events : List (SDL_Event × (Nat → Fin 2)))
    (current_time : Nat) (st : RunLoop) :
    (dispatchCount (frame events current_time st).game.calls = dispatchCount st.game.calls + 1 ↔
      (pollEvents st events).paused = false ∧
        update_interval ≤ owed (pollEvents st events) current_time) ∧
    ((frame events current_time st).game.generation =
        (pollEvents st events).game.generation + 1 ↔
      (pollEvents st events).paused = false ∧
        update_interval ≤ owed (pollEvents st events) current_time) ∧
    ((pollEvents st events).paused = true →
      (frame events current_time st).game.generation = (pollEvents st events).game.generation ∧
      (frame events current_time st).game.current_texture = st.game.current_texture ∧
      dispatchCount (frame events current_time st).game.calls = dispatchCount st.game.calls) ∧
    ((pollEvents st events).paused = true → (∀ e ∈ events, e.1 ≠ .SDL_KEYDOWN .SDLK_r) →
      (frame events current_time st).game.generation = st.game.generation) ∧
    ((pollEvents st events).paused = true → (∃ e ∈ events, e.1 = .SDL_KEYDOWN .SDLK_r) →
      (frame events current_time st).game.generation = 0) ∧
    ((pollEvents st events).paused = true → ∀ other_time : Nat,
      (frame events other_time st).game.generation =
        (frame events current_time st).game.generation ∧
      (frame events other_time st).game.current_texture =
        (frame events current_time st).game.current_texture) := by
  obtain ⟨hdue, hnot⟩ := frame_effect events current_time st
  have hiff := stepDue_iff (pollEvents st events) current_time
  have hpaused : (pollEvents st events).paused = true →
      stepDue (pollEvents st events) current_time = false := by
    intro hp
    simp [stepDue, hp]
  refine ⟨?_, ?_, fun hp => hnot (hpaused hp), ?_, ?_, ?_⟩
  · rw [← hiff]
    cases h : stepDue (pollEvents st events) current_time
    · have := (hnot h).2.2
      simp only [Bool.false_eq_true, iff_false]
      omega
    · simp only [iff_true]
      exact (hdue h).2.2
  · rw [← hiff]
    cases h : stepDue (pollEvents st events) current_time
    · have := (hnot h).1
      simp only [Bool.false_eq_true, iff_false]
      omega
    · simp only [iff_true]
      exact (hdue h).1
  · intro hp hno
    rw [(hnot (hpaused hp)).1, pollEvents_without_reset events st hno]
  · intro hp hr
    rw [(hnot (hpaused hp)).1, pollEvents_with_reset events st hr]
  · intro hp other_time
    have hother := (frame_effect events other_time st).2 (by simp [stepDue, hp])
    have hthis := hnot (hpaused hp)
    exact ⟨hother.1.trans hthis.1.symm, hother.2.1.trans hthis.2.1.symm⟩

/-- Witness of `step_iff_running_and_due`: a paused loop 4 000 000 000 ms after the start,
with no event and with an R key press. -/
theorem step_iff_running_and_due_witness :
    (pollEvents { startedAtZero with paused := true } []).paused = true ∧
    (frame [] 4000000000 { startedAtZero with paused := true }).game.generation = 0 ∧
    (pollEvents pausedAfterOneStep [(.SDL_KEYDOWN .SDLK_r, fun _ => 0)]).paused = true ∧
    (∃ e ∈ [((.SDL_KEYDOWN .SDLK_r, fun _ => 0) : SDL_Event × (Nat → Fin 2))],
      e.1 = .SDL_KEYDOWN .SDLK_r) ∧
    (frame [(.SDL_KEYDOWN .SDLK_r, fun _ => 0)] 4000000000 pausedAfterOneStep).game.generation
      = 0 :=
  ⟨rfl, ((step_iff_running_and_due [] 4000000000 { startedAtZero with paused := true }).2.2.1
    rfl).1, by decide, ⟨_, List.mem_singleton.2 rfl, rfl⟩,
    (step_iff_running_and_due [(.SDL_KEYDOWN .SDLK_r, fun _ => 0)] 4000000000
      pausedAfterOneStep).2.2.2.2.1 (by decide) ⟨_, List.mem_singleton.2 rfl, rfl⟩⟩

/-- C12 as stated fails in a paused iteration that polls an R key press: the loop steps once
at tick 160 and is paused by a SPACE key press at tick 170, so `paused` is true and
`generation` is 1; the iteration at tick 180 polls an R key press, `paused` stays true, and
`generation` is 0 after it. -/
theorem reset_while_paused_changes_generation :
    ConwayGameOfLife.Reachable pausedAfterOneStep.game ∧
    pausedAfterOneStep.paused = true ∧
    pausedAfterOneStep.game.generation = 1 ∧
    (pollEvents pausedAfterOneStep [(.SDL_KEYDOWN .SDLK_r, fun _ => 0)]).paused = true ∧
    (frame [(.SDL_KEYDOWN .SDLK_r, fun _ => 0)] 180 pausedAfterOneStep).paused = true ∧
    (frame [(.SDL_KEYDOWN .SDLK_r, fun _ => 0)] 180 pausedAfterOneStep).game.generation = 0 ∧
    (frame [(.SDL_KEYDOWN .SDLK_r, fun _ => 0)] 180 pausedAfterOneStep).game.generation ≠
      pausedAfterOneStep.game.generation := by
  refine ⟨?_, by decide, by decide, by decide, by decide, by decide, by decide⟩
  exact frame_reachable _ _ _ (frame_reachable _ _ _ startedAtZero_reachable)

/-- C13: `SDL_QUIT` and an ESC key press set `running` to false and change nothing else;
a SPACE key press flips `paused` and changes nothing else; an R key press replaces the game
by its reset (`generation` 0, `current_texture` kept) and keeps `running` and `paused`;
every other key and every other event leaves the state as it was.  The inner loop hands
each polled event to this handler, in order, so an iteration that polls one of these events
is the iteration without events from the state the handler leaves: it ends with `running`
false after `SDL_QUIT` or ESC, with `paused` flipped after SPACE, and from the reset game
after R.  After an iteration `running` is false exactly when it was false before or an
`SDL_QUIT` or ESC was polled, and `paused` is flipped exactly when an odd number of SPACE
key presses was polled; an iteration that polls no event leaves both as they were,
whatever `current_time` is. -/
theorem event_effects (st : RunLoop) (dis : Nat → Fin 2) :
    handleEvent st (.SDL_QUIT, dis) = { st with running := false } ∧
    handleEvent st (.SDL_KEYDOWN .SDLK_ESCAPE, dis) = { st with running := false } ∧
    handleEvent st (.SDL_KEYDOWN .SDLK_SPACE, dis) = { st with paused := !st.paused } ∧
    (handleEvent st (.SDL_KEYDOWN .SDLK_r, dis) =
        { st with game := st.game.randomizeGrid dis } ∧
      (handleEvent st (.SDL_KEYDOWN .SDLK_r, dis)).game.generation = 0 ∧
      (handleEvent st (.SDL_KEYDOWN .SDLK_r, dis)).game.current_texture =
        st.game.current_texture) ∧
    (∀ sym : Nat, handleEvent st (.SDL_KEYDOWN (.other sym), dis) = st) ∧
    (∀ type : Nat, handleEvent st (.other type, dis) = st) ∧
    (∀ (events : List (SDL_Event × (Nat → Fin 2))) (current_time : Nat),
      (frame events current_time st).running = (pollEvents st events).running ∧
      (frame events current_time st).paused = (pollEvents st events).paused) ∧
    (∀ current_time : Nat,
      (frame [] current_time st).running = st.running ∧
      (frame [] current_time st).paused = st.paused) ∧
    (pollEvents st [] = st ∧
      (∀ (e : SDL_Event × (Nat → Fin 2)) (events : List (SDL_Event × (Nat → Fin 2))),
        pollEvents st (e :: events) = pollEvents (handleEvent st e) events) ∧
      ∀ (events : List (SDL_Event × (Nat → Fin 2))) (current_time : Nat),
        frame events current_time st = frame [] current_time (pollEvents st events)) ∧
    (pollEvents st [(.SDL_QUIT, dis)] = { st with running := false } ∧
      pollEvents st [(.SDL_KEYDOWN .SDLK_ESCAPE, dis)] = { st with running := false } ∧
      pollEvents st [(.SDL_KEYDOWN .SDLK_SPACE, dis)] = { st with paused := !st.paused } ∧
      pollEvents st [(.SDL_KEYDOWN .SDLK_r, dis)] =
        { st with game := st.game.randomizeGrid dis } ∧
      (∀ sym : Nat, pollEvents st [(.SDL_KEYDOWN (.other sym), dis)] = st) ∧
      (∀ type : Nat, pollEvents st [(.other type, dis)] = st)) ∧
    (∀ current_time : Nat,
      frame [(.SDL_QUIT, dis)] current_time st =
        { frame [] current_time st with running := false } ∧
      frame [(.SDL_KEYDOWN .SDLK_ESCAPE, dis)] current_time st =
        { frame [] current_time st with running := false } ∧
      frame [(.SDL_KEYDOWN .SDLK_SPACE, dis)] current_time st =
        frame [] current_time { st with paused := !st.paused } ∧
      frame [(.SDL_KEYDOWN .SDLK_r, dis)] current_time st =
        frame [] current_time { st with game := st.game.randomizeGrid dis } ∧
      (∀ sym : Nat, frame [(.SDL_KEYDOWN (.other sym), dis)] current_time st =
        frame [] current_time st) ∧
      (∀ type : Nat, frame [(.other type, dis)] current_time st = frame [] current_time st)) ∧
    (∀ current_time : Nat,
      ((frame [(.SDL_QUIT, dis)] current_time st).running = false ∧
        (frame [(.SDL_QUIT, dis)] current_time st).paused = st.paused) ∧
      ((frame [(.SDL_KEYDOWN .SDLK_ESCAPE, dis)] current_time st).running = false ∧
        (frame [(.SDL_KEYDOWN .SDLK_ESCAPE, dis)] current_time st).paused = st.paused) ∧
      ((frame [(.SDL_KEYDOWN .SDLK_SPACE, dis)] current_time st).running = st.running ∧
        (frame [(.SDL_KEYDOWN .SDLK_SPACE, dis)] current_time st).paused = !st.paused) ∧
      ((frame [(.SDL_KEYDOWN .SDLK_r, dis)] current_time st).running = st.running ∧
        (frame [(.SDL_KEYDOWN .SDLK_r, dis)] current_time st).paused = st.paused)) ∧
    (∀ (events : List (SDL_Event × (Nat → Fin 2))) (current_time : Nat),
      (frame events current_time st).running =
        (st.running && events.all fun e =>
          decide (e.1 ≠ .SDL_QUIT ∧ e.1 ≠ .SDL_KEYDOWN .SDLK_ESCAPE)) ∧
      (frame events current_time st).paused =
        (if (events.countP fun e => decide (e.1 = .SDL_KEYDOWN .SDLK_SPACE)) % 2 = 1
          then !st.paused else st.paused)) := by
  refine ⟨rfl, rfl, rfl, ⟨rfl, ConwayGameOfLife.randomizeGrid_generation dis st.game,
    ConwayGameOfLife.randomizeGrid_current_texture dis st.game⟩, fun _ => rfl, fun _ => rfl,
    fun events ct => ⟨frame_running events ct st, frame_paused events ct st⟩,
    fun ct => ⟨frame_running [] ct st, frame_paused [] ct st⟩,
    ⟨rfl, fun _ _ => rfl, fun _ _ => rfl⟩,
    ⟨rfl, rfl, rfl, rfl, fun _ => rfl, fun _ => rfl⟩,
    fun ct => ⟨frame_set_running ct st false, frame_set_running ct st false, rfl, rfl,
      fun _ => rfl, fun _ => rfl⟩,
    fun ct => ⟨⟨?_, ?_⟩, ⟨?_, ?_⟩, ⟨?_, ?_⟩, ⟨?_, ?_⟩⟩,
    fun events ct => ⟨?_, ?_⟩⟩
  · rw [frame_running]; rfl
  · rw [frame_paused]; rfl
  · rw [frame_running]; rfl
  · rw [frame_paused]; rfl
  · rw [frame_running]; rfl
  · rw [frame_paused]; rfl
  · rw [frame_running]; rfl
  · rw [frame_paused]; rfl
  · rw [frame_running, pollEvents_running]
  · rw [frame_paused, pollEvents_paused]

end RunLoop
/-! ## Startup -/

/-- C15, where the code departs from it: with a compute shader that does not compile,
`initialize()` having succeeded, `main` of the Conway demo, of the ray tracer and of the
wave demo does not enter the loop and returns 0; when `initialize()` fails `main` returns 1,
and with sources that compile the loop is entered. -/
theorem setup_failure_exits_with_zero :
    strictCompiler.compileStatus (.GL_COMPUTE_SHADER, brokenCompute.compute) = false ∧
    ConwayGameOfLife.main true strictCompiler brokenCompute freshGL = ⟨0, false⟩ ∧
    RayTracer.main true strictCompiler brokenCompute freshGL = ⟨0, false⟩ ∧
    ComputeShaderExample.main true strictCompiler brokenCompute freshGL = ⟨0, false⟩ ∧
    ConwayGameOfLife.main false strictCompiler validSources freshGL = ⟨1, false⟩ ∧
    ConwayGameOfLife.main true strictCompiler validSources freshGL = ⟨0, true⟩ := by
  refine ⟨?_, ?_, ?_, ?_, ?_, ?_⟩ <;> decide

theorem main_of_init_failure (c : Compiler) (src : Sources) (g : ShaderGL) :
    ConwayGameOfLife.main false c src g = ⟨1, false⟩ ∧
    RayTracer.main false c src g = ⟨1, false⟩ ∧
    ComputeShaderExample.main false c src g = ⟨1, false⟩ := ⟨rfl, rfl, rfl⟩

theorem main_of_setup_failure (c : Compiler) (src : Sources) (g : ShaderGL) :
    ((ConwayGameOfLife.setupShaders c src g).1 = false →
      ConwayGameOfLife.main true c src g = ⟨0, false⟩) ∧
    ((setupShaders c src g).1 = false →
      RayTracer.main true c src g = ⟨0, false⟩ ∧
      ComputeShaderExample.main true c src g = ⟨0, false⟩) := by
  constructor
  · intro h
    simp [ConwayGameOfLife.main, ConwayGameOfLife.runEntersLoop, h]
  · intro h
    simp [RayTracer.main, RayTracer.runEntersLoop, ComputeShaderExample.main,
      ComputeShaderExample.runEntersLoop, h]

/-! ## Dispatches and barriers -/

theorem hazardFree_frames (frame : List CallKind) (hf : hazardFree false frame = some false)
    (frames : Nat → List CallKind) (h0 : frames 0 = [])
    (hs : ∀ n, frames (n + 1) = frames n ++ frame) :
    ∀ n, hazardFree false (frames n) = some false := by
  intro n
  induction n with
  | zero => rw [h0]; rfl
  | succ n ih => rw [hs, hazardFree_append, ih]; exact hf

theorem rayTracer_frames_hazardFree (n : Nat) :
    hazardFree false ((RayTracer.frames n).map Call.kind) = some false := by
  apply hazardFree_frames ((RayTracer.updateComputeShader ++ RayTracer.render).map Call.kind)
    (by decide) (fun n => (RayTracer.frames n).map Call.kind) rfl
  intro n
  simp only [RayTracer.frames, List.map_append]

theorem wave_frames_hazardFree (n : Nat) :
    hazardFree false ((ComputeShaderExample.frames n).map Call.kind) = some false := by
  apply hazardFree_frames
    ((ComputeShaderExample.updateComputeShader ++ ComputeShaderExample.render).map Call.kind)
    (by decide) (fun n => (ComputeShaderExample.frames n).map Call.kind) rfl
  intro n
  simp only [ComputeShaderExample.frames, List.map_append]

/-- The scan rejects a dispatch or a draw that follows a dispatch with no barrier in
between, wherever it occurs. -/
theorem hazardFree_rejects (before after : List CallKind) (pending : Bool) :
    hazardFree pending (before ++ [.dispatch, .dispatch] ++ after) = none ∧
    hazardFree pending (before ++ [.dispatch, .read] ++ after) = none := by
  simp only [List.append_assoc, hazardFree_append]
  cases hazardFree pending before with
  | none => exact ⟨rfl, rfl⟩
  | some q => cases q <;> exact ⟨rfl, rfl⟩

/-- C16: in the call list of every reachable state of the Conway demo, in the calls of
the ray tracer and of the wave demo for any number of iterations, and in the calls of the
Mandelbrot demo and of the minimal test, no draw and no further dispatch is issued between
a `glDispatchCompute` and the `glMemoryBarrier` that follows it, and no dispatch is left
without its barrier. -/
theorem barrier_follows_every_dispatch :
    (∀ s : ConwayGameOfLife, ConwayGameOfLife.Reachable s →
      hazardFree false (s.calls.map GLCall.kind) = some false) ∧
    (∀ n : Nat, hazardFree false ((RayTracer.run n).map Call.kind) = some false) ∧
    (∀ n : Nat, hazardFree false ((ComputeShaderExample.run n).map Call.kind) = some false) ∧
    hazardFree false (Mandelbrot.main.map Call.kind) = some false ∧
    hazardFree false (MinimalTest.main.map Call.kind) = some false := by
  refine ⟨fun s h => ConwayGameOfLife.reachable_hazardFree h, ?_, ?_, by decide, by decide⟩
  · intro n
    have hpre : hazardFree false ((RayTracer.setupTexture ++ RayTracer.setupGeometry ++
        RayTracer.setupCameraUniform).map Call.kind) = some false := by decide
    have hrun : RayTracer.run n = (RayTracer.setupTexture ++ RayTracer.setupGeometry ++
        RayTracer.setupCameraUniform) ++ RayTracer.frames n := by
      simp [RayTracer.run, RayTracer.cleanup]
    rw [hrun, List.map_append, hazardFree_append, hpre]
    exact rayTracer_frames_hazardFree n
  · intro n
    have hpre : hazardFree false (([Call.glClearColor, Call.glClear, Call.MGLswapBuffers] ++
        ComputeShaderExample.setupTexture ++ ComputeShaderExample.setupGeometry ++
        ComputeShaderExample.setupTimeUniform).map Call.kind) = some false := by decide
    have hrun : ComputeShaderExample.run n = ([Call.glClearColor, Call.glClear, Call.MGLswapBuffers] ++
        ComputeShaderExample.setupTexture ++ ComputeShaderExample.setupGeometry ++
        ComputeShaderExample.setupTimeUniform) ++ ComputeShaderExample.frames n := by
      simp [ComputeShaderExample.run]
    rw [hrun, List.map_append, hazardFree_append, hpre]
    exact wave_frames_hazardFree n

/-- Witness of `barrier_follows_every_dispatch` after one step of the Conway demo. -/
theorem barrier_follows_every_dispatch_witness :
    ConwayGameOfLife.Reachable ConwayGameOfLife.afterOneStep ∧
    hazardFree false (ConwayGameOfLife.afterOneStep.calls.map GLCall.kind) = some false :=
  ⟨ConwayGameOfLife.afterOneStep_reachable,
    barrier_follows_every_dispatch.1 _ ConwayGameOfLife.afterOneStep_reachable⟩

/-! ## Link without a compile check -/

/-- C17, where the code departs from it: the program construction of the Mandelbrot demo
issues `glLinkProgram` for the compute program (object 2) although its only stage, with the
source `"syntax error"`, does not compile; `compileGLSLProgram` and `compileComputeShader`
on the same source issue no `glLinkProgram`. -/
theorem mandelbrot_links_unchecked :
    strictCompiler.compileStatus (.GL_COMPUTE_SHADER, "syntax error") = false ∧
    ShaderCall.glLinkProgram 2 ∈
      (Mandelbrot.buildPrograms "syntax error" "in vec2 position;" "out vec4 frag_color;"
        freshGL).2.calls ∧
    linkAttempted (Mandelbrot.buildPrograms "syntax error" "in vec2 position;"
      "out vec4 frag_color;" freshGL).2.calls = true ∧
    linkAttempted (compileGLSLProgram strictCompiler [(.GL_COMPUTE_SHADER, "syntax error")]
      freshGL).2.calls = false ∧
    linkAttempted (compileComputeShader strictCompiler "syntax error" freshGL).2.calls = false := by
  refine ⟨?_, ?_, ?_, ?_, ?_⟩ <;> decide

/-! ## Teardown -/

/-- C18 as stated fails on the Mandelbrot demo: at the end of the loop it holds the two
programs, the texture, the vertex array and the two buffers, created in that order, and it
deletes them in the order vertex array, buffers, texture, compute program, render program,
which is not the reverse; nor is the list of all its deletions the reverse of the list of
all its creations.  The ray tracer holds five objects after an iteration and its `cleanup`
deletes none. -/
theorem mandelbrot_release_order_not_reversed :
    held Mandelbrot.setup =
      [.compute_program, .render_program, .texture, .vao, .vbo, .ebo] ∧
    released Mandelbrot.teardown =
      [.vao, .vbo, .ebo, .texture, .compute_program, .render_program] ∧
    released Mandelbrot.teardown ≠ (held Mandelbrot.setup).reverse ∧
    released Mandelbrot.main ≠ (acquired Mandelbrot.main).reverse ∧
    held (RayTracer.run 1) = [.texture, .vao, .vbo, .ebo, .camera_ubo] ∧
    released RayTracer.cleanup = [] := by
  refine ⟨?_, ?_, ?_, ?_, ?_, ?_⟩ <;> decide

/-- C18, as the code has it for the Mandelbrot demo: after the loop `main` deletes the
vertex array, the two buffers, the texture, the compute program and the render program, in
that order; these are exactly the objects held at the end of the loop, each deleted once;
nothing is left held once `main` is through, and the teardown creates nothing. -/
theorem mandelbrot_releases_what_it_holds :
    released Mandelbrot.teardown =
      [.vao, .vbo, .ebo, .texture, .compute_program, .render_program] ∧
    (released Mandelbrot.teardown).Perm (held Mandelbrot.setup) ∧
    (released Mandelbrot.teardown).Nodup ∧
    held Mandelbrot.main = [] ∧
    acquired Mandelbrot.teardown = [] := by
  refine ⟨by decide, ?_, by decide, by decide, by decide⟩
  decide

/-! ## The transition rule -/

theorem golSum_eq (inputImage : Image) (texelCoord : Int × Int) :
    golSum inputImage texelCoord =
      ((offsets8.map fun d => if neighbourAlive inputImage texelCoord d then (1 : Int) else 0).sum) := by
  simp [golSum, offsets8, neighbourAlive, List.foldl]
  ring


theorem sum_indicator_eq_countP {α : Type} (f : α → Bool) (l : List α) :
    (l.map fun d => if f d then (1 : Int) else 0).sum = (l.countP f : Int) := by
  induction l with
  | nil => rfl
  | cons a l ih =>
    rw [List.map_cons, List.sum_cons, ih, List.countP_cons]
    cases f a <;> simp
    omega

theorem golSum_count (inputImage : Image) (texelCoord : Int × Int) :
    golSum inputImage texelCoord =
      (offsets8.countP (neighbourAlive inputImage texelCoord) : Int) := by
  rw [golSum_eq, sum_indicator_eq_countP]

theorem aboveHalf_iff (byte : Nat) : aboveHalf byte = true ↔ (1 : ℚ) / 2 < (byte : ℚ) / 255 := by
  unfold aboveHalf
  rw [decide_eq_true_iff, div_lt_div_iff₀ (by norm_num) (by norm_num)]
  constructor
  · intro h
    have : ((255 : Nat) : ℚ) < ((2 * byte : Nat) : ℚ) := by exact_mod_cast h
    push_cast at this
    linarith
  · intro h
    have : ((255 : Nat) : ℚ) < ((2 * byte : Nat) : ℚ) := by push_cast; linarith
    exact_mod_cast this

theorem offsets8_mem (dx dy : Int) : (dx, dy) ∈ offsets8 ↔
    (dx = -1 ∨ dx = 0 ∨ dx = 1) ∧ (dy = -1 ∨ dy = 0 ∨ dy = 1) ∧ ¬ (dx = 0 ∧ dy = 0) := by
  simp only [offsets8, List.mem_cons, Prod.mk.injEq, List.not_mem_nil, or_false]
  omega

theorem neighbourAlive_eq (inputImage : Image) (texelCoord d : Int × Int)
    (hx0 : 0 ≤ texelCoord.1) (hx : texelCoord.1 < inputImage.width)
    (hy0 : 0 ≤ texelCoord.2) (hy : texelCoord.2 < inputImage.height) (hd : d ∈ offsets8) :
    neighbourAlive inputImage texelCoord d =
      decide (255 < 2 * (inputImage.data ((texelCoord.1 + d.1) % inputImage.width)
        ((texelCoord.2 + d.2) % inputImage.height)).r) := by
  obtain ⟨dx, dy⟩ := d
  obtain ⟨hdx, hdy, -⟩ := (offsets8_mem dx dy).1 hd
  have hX := (wrap_coord inputImage.width texelCoord.1 dx (by omega) hx0 hx hdx).1
  have hY := (wrap_coord inputImage.height texelCoord.2 dy (by omega) hy0 hy hdy).1
  have hw : (0 : Int) < inputImage.width := by omega
  have hh : (0 : Int) < inputImage.height := by omega
  simp only [neighbourAlive, golNeighbor, imageSize, hX, hY, imageLoad, aboveHalf]
  rw [if_pos ⟨Int.emod_nonneg _ (by omega), Int.emod_lt_of_pos _ hw,
    Int.emod_nonneg _ (by omega), Int.emod_lt_of_pos _ hh⟩]

theorem golSum_cells (inputImage : Image) (texelCoord : Int × Int)
    (hx0 : 0 ≤ texelCoord.1) (hx : texelCoord.1 < inputImage.width)
    (hy0 : 0 ≤ texelCoord.2) (hy : texelCoord.2 < inputImage.height) :
    golSum inputImage texelCoord =
      ((offsets8.countP fun d =>
        decide (255 < 2 * (inputImage.data ((texelCoord.1 + d.1) % inputImage.width)
          ((texelCoord.2 + d.2) % inputImage.height)).r) : Nat) : Int) := by
  rw [golSum_count]
  congr 1
  exact List.countP_congr fun d hd => by
    rw [neighbourAlive_eq inputImage texelCoord d hx0 hx hy0 hy hd]

theorem wrap_injective (w x d d' : Int) (hw : 3 ≤ w) (hx0 : 0 ≤ x) (hx : x < w)
    (hd : d = -1 ∨ d = 0 ∨ d = 1) (hd' : d' = -1 ∨ d' = 0 ∨ d' = 1)
    (h : (x + d) % w = (x + d') % w) : d = d' := by
  rw [(wrap_coord w x d (by omega) hx0 hx hd).2, (wrap_coord w x d' (by omega) hx0 hx hd').2] at h
  split_ifs at h <;> omega

theorem neighbours_distinct (w h x y : Int) (hw : 3 ≤ w) (hh : 3 ≤ h)
    (hx0 : 0 ≤ x) (hx : x < w) (hy0 : 0 ≤ y) (hy : y < h) :
    (offsets8.map fun d => ((x + d.1) % w, (y + d.2) % h)).Nodup ∧
    (x, y) ∉ offsets8.map fun d => ((x + d.1) % w, (y + d.2) % h) := by
  constructor
  · refine List.Nodup.map_on ?_ (by decide)
    rintro ⟨dx, dy⟩ hd ⟨dx', dy'⟩ hd' heq
    obtain ⟨h1, h2, -⟩ := (offsets8_mem dx dy).1 hd
    obtain ⟨h1', h2', -⟩ := (offsets8_mem dx' dy').1 hd'
    simp only [Prod.mk.injEq] at heq
    rw [wrap_injective w x dx dx' hw hx0 hx h1 h1' heq.1,
      wrap_injective h y dy dy' hh hy0 hy h2 h2' heq.2]
  · intro hmem
    obtain ⟨⟨dx, dy⟩, hd, heq⟩ := List.mem_map.1 hmem
    obtain ⟨h1, h2, h3⟩ := (offsets8_mem dx dy).1 hd
    simp only [Prod.mk.injEq] at heq
    have e1 : (x + dx) % w = (x + 0) % w := by
      rw [heq.1, Int.add_zero, Int.emod_eq_of_lt hx0 hx]
    have e2 : (y + dy) % h = (y + 0) % h := by
      rw [heq.2, Int.add_zero, Int.emod_eq_of_lt hy0 hy]
    exact h3 ⟨wrap_injective w x dx 0 hw hx0 hx h1 (Or.inr (Or.inl rfl)) e1,
      wrap_injective h y dy 0 hh hy0 hy h2 (Or.inr (Or.inl rfl)) e2⟩

theorem golNextAlive_iff (sum : Int) (alive : Bool) :
    golNextAlive sum alive = true ↔ sum = 3 ∨ (sum = 2 ∧ alive = true) := by
  unfold golNextAlive
  split_ifs <;> simp_all

theorem golMain_cells (inputImage : Image) (texelCoord : Int × Int)
    (hx0 : 0 ≤ texelCoord.1) (hx : texelCoord.1 < inputImage.width)
    (hy0 : 0 ≤ texelCoord.2) (hy : texelCoord.2 < inputImage.height) :
    golMain inputImage texelCoord =
      some (if golSum inputImage texelCoord = 3 ∨ (golSum inputImage texelCoord = 2 ∧
          255 < 2 * (inputImage.data texelCoord.1 texelCoord.2).r)
        then ⟨255, 255, 255, 255⟩ else ⟨0, 0, 0, 255⟩) := by
  have hload : imageLoad inputImage texelCoord = inputImage.data texelCoord.1 texelCoord.2 := by
    unfold imageLoad
    rw [if_pos ⟨hx0, hx, hy0, hy⟩]
  have hiff := golNextAlive_iff (golSum inputImage texelCoord)
    (aboveHalf (inputImage.data texelCoord.1 texelCoord.2).r)
  simp only [aboveHalf, decide_eq_true_iff] at hiff
  simp only [golMain, imageSize, hload]
  rw [if_neg (by omega)]
  by_cases hn : golNextAlive (golSum inputImage texelCoord)
      (decide (255 < 2 * (inputImage.data texelCoord.1 texelCoord.2).r)) = true
  · simp only [aboveHalf, hn, if_true, if_pos (hiff.1 hn)]
  · have hn2 := fun h => hn (hiff.2 h)
    simp only [aboveHalf, hn, if_neg hn2]
    rfl

/-- C19: the next state the kernel computes is alive if and only if `sum = 3`, or
`sum = 2` and the cell is alive; `sum` is the number of offsets among the eight of the
neighbourhood whose cell has its red channel above 0.5, so it lies in 0..8; the eight
offsets are the pairs of {-1, 0, 1} other than (0, 0), each once; and an invocation inside
the image stores 1.0 in the colour channels for an alive next state and 0.0 otherwise, with
alpha 1.0.  The test on a channel holds exactly when the stored byte over 255 is more than
one half, that is from byte 128 on.  For a cell `(x, y)` of the image, `sum` is the number
of offsets `(dx, dy)` among the eight for which the texel stored at
`((x + dx) mod width, (y + dy) mod height)` has its red byte above one half, and the cell is
alive when the red byte stored at `(x, y)` is; in an image of at least 3 x 3 cells these
eight coordinates are eight different cells, none of them `(x, y)`. -/
theorem kernel_is_B3_S23 (inputImage : Image) (texelCoord : Int × Int) :
    (∀ (sum : Int) (alive : Bool),
      golNextAlive sum alive = true ↔ sum = 3 ∨ (sum = 2 ∧ alive = true)) ∧
    golSum inputImage texelCoord =
      (offsets8.countP (neighbourAlive inputImage texelCoord) : Int) ∧
    (0 ≤ golSum inputImage texelCoord ∧ golSum inputImage texelCoord ≤ 8) ∧
    (offsets8.length = 8 ∧ offsets8.Nodup ∧ (0, 0) ∉ offsets8 ∧
      ∀ dx dy : Int, (dx, dy) ∈ offsets8 ↔
        (dx = -1 ∨ dx = 0 ∨ dx = 1) ∧ (dy = -1 ∨ dy = 0 ∨ dy = 1) ∧ ¬ (dx = 0 ∧ dy = 0)) ∧
    (texelCoord.1 < inputImage.width → texelCoord.2 < inputImage.height →
      golMain inputImage texelCoord =
        some (if golNextAlive (golSum inputImage texelCoord)
            (aboveHalf (imageLoad inputImage texelCoord).r) then ⟨255, 255, 255, 255⟩
          else ⟨0, 0, 0, 255⟩)) ∧
    (∀ byte : Nat,
      (aboveHalf byte = true ↔ (1 : ℚ) / 2 < (byte : ℚ) / 255) ∧
      (aboveHalf byte = true ↔ 128 ≤ byte)) ∧
    (0 ≤ texelCoord.1 → texelCoord.1 < inputImage.width →
      0 ≤ texelCoord.2 → texelCoord.2 < inputImage.height →
      golSum inputImage texelCoord =
        ((offsets8.countP fun d =>
          decide (255 < 2 * (inputImage.data ((texelCoord.1 + d.1) % inputImage.width)
            ((texelCoord.2 + d.2) % inputImage.height)).r) : Nat) : Int) ∧
      golMain inputImage texelCoord =
        some (if golSum inputImage texelCoord = 3 ∨ (golSum inputImage texelCoord = 2 ∧
            255 < 2 * (inputImage.data texelCoord.1 texelCoord.2).r)
          then ⟨255, 255, 255, 255⟩ else ⟨0, 0, 0, 255⟩)) ∧
    (3 ≤ inputImage.width → 3 ≤ inputImage.height →
      0 ≤ texelCoord.1 → texelCoord.1 < inputImage.width →
      0 ≤ texelCoord.2 → texelCoord.2 < inputImage.height →
      (offsets8.map fun d => ((texelCoord.1 + d.1) % inputImage.width,
        (texelCoord.2 + d.2) % inputImage.height)).Nodup ∧
      (texelCoord.1, texelCoord.2) ∉ offsets8.map fun d =>
        ((texelCoord.1 + d.1) % inputImage.width, (texelCoord.2 + d.2) % inputImage.height)) := by
  refine ⟨golNextAlive_iff, golSum_count inputImage texelCoord, ?_,
    ⟨rfl, by decide, by decide, offsets8_mem⟩, ?_, ?_, ?_, ?_⟩
  · rw [golSum_count]
    have h := List.countP_le_length (neighbourAlive inputImage texelCoord) (l := offsets8)
    have h8 : offsets8.length = 8 := rfl
    constructor <;> omega
  · intro hx hy
    simp only [golMain, imageSize]
    rw [if_neg (by omega)]
    split_ifs <;> rfl
  · intro byte
    refine ⟨aboveHalf_iff byte, ?_⟩
    unfold aboveHalf
    rw [decide_eq_true_iff]
    omega
  · intro hx0 hx hy0 hy
    exact ⟨golSum_cells inputImage texelCoord hx0 hx hy0 hy,
      golMain_cells inputImage texelCoord hx0 hx hy0 hy⟩
  · intro hw hh hx0 hx hy0 hy
    exact neighbours_distinct inputImage.width inputImage.height texelCoord.1 texelCoord.2
      hw hh hx0 hx hy0 hy

/-- Witness of `kernel_is_B3_S23` at the centre cell of the blinker: two of its eight
neighbours are alive and it is alive, so it stays alive. -/
theorem kernel_is_B3_S23_witness :
    ((0 : Int) ≤ ((1, 1) : Int × Int).1 ∧ ((1, 1) : Int × Int).1 < blinker.width ∧
      (0 : Int) ≤ ((1, 1) : Int × Int).2 ∧ ((1, 1) : Int × Int).2 < blinker.height) ∧
    golSum blinker (1, 1) = 2 ∧
    golSum blinker (1, 1) =
      ((offsets8.countP fun d =>
        decide (255 < 2 * (blinker.data ((((1, 1) : Int × Int).1 + d.1) % blinker.width)
          ((((1, 1) : Int × Int).2 + d.2) % blinker.height)).r) : Nat) : Int) ∧
    golMain blinker (1, 1) =
      some (if golSum blinker (1, 1) = 3 ∨ (golSum blinker (1, 1) = 2 ∧
          255 < 2 * (blinker.data ((1, 1) : Int × Int).1 ((1, 1) : Int × Int).2).r)
        then ⟨255, 255, 255, 255⟩ else ⟨0, 0, 0, 255⟩) ∧
    golMain blinker (1, 1) = some live :=
  ⟨⟨by decide, by decide, by decide, by decide⟩, by decide,
    ((kernel_is_B3_S23 blinker (1, 1)).2.2.2.2.2.2.1 (by decide) (by decide) (by decide)
      (by decide)).1,
    ((kernel_is_B3_S23 blinker (1, 1)).2.2.2.2.2.2.1 (by decide) (by decide) (by decide)
      (by decide)).2, by decide⟩

/-- C20, where the code departs from it: `update_interval` is 160, so `1000 /
update_interval` is 6, and it is neither 16 nor 17; a loop started at tick 0 takes no step
at tick 17 nor at tick 159, and takes one at tick 160. -/
theorem update_interval_is_not_sixty_hertz :
    RunLoop.update_interval = 160 ∧ 1000 / RunLoop.update_interval = 6 ∧
    RunLoop.update_interval ≠ 16 ∧ RunLoop.update_interval ≠ 17 ∧
    RunLoop.stepDue RunLoop.startedAtZero 17 = false ∧
    RunLoop.stepDue RunLoop.startedAtZero 159 = false ∧
    RunLoop.stepDue RunLoop.startedAtZero 160 = true := by
  refine ⟨rfl, ?_, ?_, ?_, ?_, ?_, ?_⟩ <;> decide

/-! ## The group counts of the minimal test -/

/-- C21: the minimal test allocates an 800 x 600 texture and dispatches 50 x 38 x 1
groups; 50 and 38 are the ceiling counts `(d + 15) / 16` of 800 and 600, so
`16 * 50 ≥ 800`, `16 * 49 < 800`, `16 * 38 ≥ 600` and `16 * 37 < 600`. -/
theorem minimal_group_counts_are_ceilings :
    Call.glTextureStorage2D .texture 800 600 ∈ MinimalTest.main ∧
    Call.glDispatchCompute 50 38 1 ∈ MinimalTest.main ∧
    numGroups 800 16 = 50 ∧ numGroups 600 16 = 38 ∧
    (16 * 50 ≥ (800 : Int) ∧ 16 * (50 - 1) < (800 : Int)) ∧
    (16 * 38 ≥ (600 : Int) ∧ 16 * (38 - 1) < (600 : Int)) := by
  refine ⟨by decide, by decide, by decide, by decide, by decide, by decide⟩

/-! ## The display quad -/

theorem quad_covers (p : Point) :
    covers RayTracer.vertices 4 (trianglesOf RayTracer.indices) p ↔ inViewport p := by
  obtain ⟨x, y⟩ := p
  simp only [covers, trianglesOf, RayTracer.indices, RayTracer.vertices, positionOf, inTriangle,
    edgeFunction, inViewport, List.mem_cons, List.not_mem_nil, or_false, exists_eq_or_imp,
    exists_eq_left]
  norm_num [List.getD]
  constructor
  · rintro ((⟨h1, h2, h3⟩ | ⟨h1, h2, h3⟩) | ⟨h1, h2, h3⟩ | ⟨h1, h2, h3⟩) <;>
      refine ⟨?_, ?_, ?_, ?_⟩ <;> linarith
  · rintro ⟨h1, h2, h3, h4⟩
    rcases le_total y x with h | h
    · exact Or.inl (Or.inl ⟨by linarith, by linarith, h⟩)
    · exact Or.inr (Or.inl ⟨by linarith, by linarith, h⟩)

theorem strip_covers (p : Point) :
    covers ConwayGameOfLife.quad_vertices 2 (stripTriangles 0 4) p ↔ inViewport p := by
  obtain ⟨x, y⟩ := p
  have hs : stripTriangles 0 4 = [(0, 1, 2), (1, 2, 3)] := by decide
  simp only [covers, hs, ConwayGameOfLife.quad_vertices, positionOf, inTriangle,
    edgeFunction, inViewport, List.mem_cons, List.not_mem_nil, or_false, exists_eq_or_imp,
    exists_eq_left]
  norm_num [List.getD]
  constructor
  · rintro ((⟨h1, h2, h3⟩ | ⟨h1, h2, h3⟩) | ⟨h1, h2, h3⟩ | ⟨h1, h2, h3⟩) <;>
      refine ⟨?_, ?_, ?_, ?_⟩ <;> linarith
  · rintro ⟨h1, h2, h3, h4⟩
    rcases le_total (x + y) 0 with h | h
    · exact Or.inl (Or.inl ⟨by linarith, by linarith, by linarith⟩)
    · exact Or.inr (Or.inr ⟨by linarith, by linarith, by linarith⟩)

/-- C22: the six indices of the ray tracer quad are below the vertex count 4 and
`glDrawElements(GL_TRIANGLES, 6, ...)` draws the triangles (v0, v1, v2) and (v2, v3, v0)
over the positions (-1,-1), (1,-1), (1,1), (-1,1); a point is covered by one of them if and
only if it lies in the square [-1,1] x [-1,1].  The strip of the Conway demo,
`glDrawArrays(GL_TRIANGLE_STRIP, 0, 4)` over (-1,-1), (1,-1), (-1,1), (1,1), draws the
triangles (v0, v1, v2) and (v1, v2, v3), and a point is covered by one of them if and only
if it lies in that square. -/
theorem quad_covers_viewport :
    (RayTracer.vertices.length = 4 * 4 ∧ ∀ i ∈ RayTracer.indices, i < 4) ∧
    (RayTracer.indices.length = 6 ∧ Call.glDrawElements 6 ∈ RayTracer.render ∧
      ∀ s : ConwayGameOfLife, GLCall.glDrawArrays 0 4 ∈ s.render.calls) ∧
    trianglesOf RayTracer.indices = [(0, 1, 2), (2, 3, 0)] ∧
    [positionOf RayTracer.vertices 4 0, positionOf RayTracer.vertices 4 1,
      positionOf RayTracer.vertices 4 2, positionOf RayTracer.vertices 4 3] =
      [(-1, -1), (1, -1), (1, 1), (-1, 1)] ∧
    (∀ p : Point,
      covers RayTracer.vertices 4 (trianglesOf RayTracer.indices) p ↔ inViewport p) ∧
    (ConwayGameOfLife.quad_vertices.length = 2 * 4 ∧
      stripTriangles 0 4 = [(0, 1, 2), (1, 2, 3)]) ∧
    [positionOf ConwayGameOfLife.quad_vertices 2 0, positionOf ConwayGameOfLife.quad_vertices 2 1,
      positionOf ConwayGameOfLife.quad_vertices 2 2,
      positionOf ConwayGameOfLife.quad_vertices 2 3] =
      [(-1, -1), (1, -1), (-1, 1), (1, 1)] ∧
    (∀ p : Point,
      covers ConwayGameOfLife.quad_vertices 2 (stripTriangles 0 4) p ↔ inViewport p) := by
  refine ⟨⟨rfl, by decide⟩, ⟨rfl, by decide, ?_⟩, rfl, ?_, quad_covers, ⟨rfl, by decide⟩, ?_,
    strip_covers⟩
  · intro s
    rw [ConwayGameOfLife.render_calls]
    simp
  · simp [positionOf, RayTracer.vertices]
  · simp [positionOf, ConwayGameOfLife.quad_vertices]

/-! ## The Mandelbrot loop -/

theorem mandelbrotLoop_cases (escapes : Int → Bool) (iterations : Int) :
    ∀ (fuel : Nat) (i : Int),
      mandelbrotLoop escapes iterations i fuel = iterations ∨
      (i ≤ mandelbrotLoop escapes iterations i fuel ∧
        mandelbrotLoop escapes iterations i fuel < max_iter ∧
        escapes (mandelbrotLoop escapes iterations i fuel) = true) := by
  intro fuel
  induction fuel with
  | zero => intro i; exact Or.inl rfl
  | succ n ih =>
    intro i
    unfold mandelbrotLoop
    by_cases hlt : i < max_iter
    · rw [if_pos hlt]
      cases he : escapes i
      · simp only [Bool.false_eq_true, if_false]
        rcases ih (i + 1) with h | ⟨h1, h2, h3⟩
        · exact Or.inl h
        · exact Or.inr ⟨by omega, h2, h3⟩
      · simp only [if_true]
        exact Or.inr ⟨le_refl i, hlt, he⟩
    · rw [if_neg hlt]
      exact Or.inl rfl

theorem mandelbrotLoop_never (escapes : Int → Bool) (iterations : Int) :
    ∀ (fuel : Nat) (i : Int), (∀ j, i ≤ j → j < max_iter → escapes j = false) →
      mandelbrotLoop escapes iterations i fuel = iterations := by
  intro fuel
  induction fuel with
  | zero => intro i _; rfl
  | succ n ih =>
    intro i h
    unfold mandelbrotLoop
    by_cases hlt : i < max_iter
    · rw [if_pos hlt, h i (le_refl i) hlt]
      simp only [Bool.false_eq_true, if_false]
      exact ih (i + 1) (fun j hj hj' => h j (by omega) hj')
    · rw [if_neg hlt]

theorem mandelbrotLoop_first (escapes : Int → Bool) (iterations k : Int)
    (hk : k < max_iter) (hesc : escapes k = true) :
    ∀ (fuel : Nat) (i : Int), i ≤ k → (∀ j, i ≤ j → j < k → escapes j = false) →
      k - i < fuel → mandelbrotLoop escapes iterations i fuel = k := by
  intro fuel
  induction fuel with
  | zero => intro i hi _ hf; simp at hf; omega
  | succ n ih =>
    intro i hi hbefore hf
    unfold mandelbrotLoop
    rw [if_pos (by omega)]
    by_cases hik : i = k
    · subst hik
      rw [hesc]
      rfl
    · rw [hbefore i (le_refl i) (by omega)]
      simp only [Bool.false_eq_true, if_false]
      exact ih (i + 1) (by omega) (fun j hj hj' => hbefore j (by omega) hj')
        (by push_cast at hf ⊢; omega)

/-- C24: whatever the escape test answers in each iteration, `iterations` after the loop
of the Mandelbrot kernel is in `0 .. max_iter - 1`; it is 0 when the point never escapes and
0 when it escapes in iteration 0, and otherwise the first iteration in which it escapes.
So for every invocation inside the image the test `iterations < max_iter` holds and the
colour stored is that of the first branch, never `black`. -/
theorem mandelbrot_iterations_below_max {Color : Type} (escapes : Int → Bool) :
    (0 ≤ mandelbrotIterations escapes ∧ mandelbrotIterations escapes < max_iter) ∧
    ((∀ j, 0 ≤ j → j < max_iter → escapes j = false) → mandelbrotIterations escapes = 0) ∧
    (escapes 0 = true → mandelbrotIterations escapes = 0) ∧
    (∀ k : Int, 0 ≤ k → k < max_iter → escapes k = true →
      (∀ j, 0 ≤ j → j < k → escapes j = false) → mandelbrotIterations escapes = k) ∧
    (∀ (esc : Int × Int → Int × Int → Int → Bool)
        (palette : Int × Int → Int × Int → Int → Color) (black : Color)
        (dims gid : Int × Int), gid.1 < dims.1 → gid.2 < dims.2 →
      mandelbrotMain esc palette black dims gid =
        some (palette gid dims (mandelbrotIterations (esc gid dims)))) := by
  have hmax : (0 : Int) < max_iter := by decide
  have hfuel : ((max_iter.toNat : Nat) : Int) = max_iter := by decide
  have hrange : ∀ e : Int → Bool, 0 ≤ mandelbrotIterations e ∧ mandelbrotIterations e < max_iter := by
    intro e
    unfold mandelbrotIterations
    rcases mandelbrotLoop_cases e 0 max_iter.toNat 0 with h | ⟨h1, h2, -⟩
    · rw [h]; exact ⟨le_refl 0, hmax⟩
    · exact ⟨h1, h2⟩
  have hfirst : ∀ k : Int, 0 ≤ k → k < max_iter → escapes k = true →
      (∀ j, 0 ≤ j → j < k → escapes j = false) → mandelbrotIterations escapes = k := by
    intro k hk0 hk hesc hbefore
    exact mandelbrotLoop_first escapes 0 k hk hesc max_iter.toNat 0 hk0 hbefore (by omega)
  refine ⟨hrange escapes, ?_, ?_, hfirst, ?_⟩
  · intro h
    exact mandelbrotLoop_never escapes 0 max_iter.toNat 0 h
  · intro h0
    exact hfirst 0 (le_refl 0) hmax h0 (fun j hj hj' => by omega)
  · intro esc palette black dims gid hx hy
    simp only [mandelbrotMain]
    rw [if_neg (by omega), if_pos (hrange (esc gid dims)).2]

/-- Witness of `mandelbrot_iterations_below_max`: the pixel (0, 0) of the 1024 x 768
image with a point that never escapes. -/
theorem mandelbrot_iterations_below_max_witness :
    ((0, 0) : Int × Int).1 < ((1024, 768) : Int × Int).1 ∧
    ((0, 0) : Int × Int).2 < ((1024, 768) : Int × Int).2 ∧
    mandelbrotMain (fun _ _ _ => false) (fun _ _ n => n) (-1) (1024, 768) (0, 0) =
      some (mandelbrotIterations fun _ => false) :=
  ⟨by decide, by decide,
    (mandelbrot_iterations_below_max (fun _ => false)).2.2.2.2 (fun _ _ _ => false)
      (fun _ _ n => n) (-1) (1024, 768) (0, 0) (by decide) (by decide)⟩

/-! ## Elapsed time and the two compile functions -/

theorem sub32_eq_emod (last current : Nat) (hl : last < 2 ^ 32) (hc : current < 2 ^ 32) :
    ((sub32 current last : Nat) : Int) = ((current : Int) - (last : Int)) % 2 ^ 32 := by
  unfold sub32
  norm_num at hl hc ⊢
  omega

theorem sub32_ticks (T_last T_current : Nat) (hle : T_last ≤ T_current)
    (hgap : T_current - T_last < 2 ^ 32) :
    sub32 (SDL_GetTicks T_current) (SDL_GetTicks T_last) = T_current - T_last := by
  unfold sub32 SDL_GetTicks
  norm_num at hgap ⊢
  omega

/-- C25: for tick values `last` and `current` below 2^32 the difference the loops compute
is `(current - last) mod 2^32`, itself below 2^32.  When the ticks are those of two
instants `T_last ≤ T_current` less than 2^32 ms apart, whether or not the counter wrapped in
between, the difference is `T_current - T_last`, and the test of the Conway loop holds if
and only if the loop is not paused and `T_current - T_last` is at least
`update_interval`. -/
theorem elapsed_time_wraps (last current : Nat) (hl : last < 2 ^ 32) (hc : current < 2 ^ 32) :
    ((sub32 current last : Nat) : Int) = ((current : Int) - (last : Int)) % 2 ^ 32 ∧
    sub32 current last < 2 ^ 32 ∧
    (∀ T_last T_current : Nat, T_last ≤ T_current → T_current - T_last < 2 ^ 32 →
      SDL_GetTicks T_last = last → SDL_GetTicks T_current = current →
      sub32 current last = T_current - T_last ∧
      ∀ st : RunLoop, st.last_update = last →
        RunLoop.owed st current = T_current - T_last ∧
        (RunLoop.stepDue st current = true ↔
          st.paused = false ∧ RunLoop.update_interval ≤ T_current - T_last)) := by
  refine ⟨sub32_eq_emod last current hl hc, ?_, ?_⟩
  · unfold sub32
    exact Nat.mod_lt _ (by norm_num)
  · intro T_last T_current hle hgap h1 h2
    have hs : sub32 current last = T_current - T_last := by
      rw [← h1, ← h2]
      exact sub32_ticks T_last T_current hle hgap
    refine ⟨hs, ?_⟩
    intro st hst
    have ho : RunLoop.owed st current = T_current - T_last := by
      unfold RunLoop.owed
      rw [hst, hs]
    refine ⟨ho, ?_⟩
    rw [RunLoop.stepDue_iff, ho]

/-- Witness of `elapsed_time_wraps`: the counter wraps between an instant 100 ms before
2^32 and one 100 ms after it. -/
theorem elapsed_time_wraps_witness :
    (4294967196 : Nat) < 2 ^ 32 ∧ (100 : Nat) < 2 ^ 32 ∧
    SDL_GetTicks 4294967196 = 4294967196 ∧ SDL_GetTicks 4294967396 = 100 ∧
    sub32 100 4294967196 = 4294967396 - 4294967196 :=
  ⟨by decide, by decide, by decide, by decide,
    ((elapsed_time_wraps 4294967196 100 (by decide) (by decide)).2.2 4294967196 4294967396
      (by decide) (by decide) (by decide) (by decide)).1⟩

theorem compileComputeShader_result (c : Compiler) (src : String) (g : ShaderGL) :
    (compileComputeShader c src g).1 =
      if c.compileStatus (.GL_COMPUTE_SHADER, src) = true ∧
          c.linkStatus [(.GL_COMPUTE_SHADER, src)] = true then g.next + 1 else 0 := by
  unfold compileComputeShader
  cases h1 : c.compileStatus (.GL_COMPUTE_SHADER, src) <;>
    cases h2 : c.linkStatus [(.GL_COMPUTE_SHADER, src)] <;>
    simp [ShaderGL.glCreateShader, ShaderGL.glCreateProgram, ShaderGL.log, h2]

theorem compileGLSLProgram_single (c : Compiler) (src : String) (g : ShaderGL) :
    (compileGLSLProgram c [(.GL_COMPUTE_SHADER, src)] g).1 =
      if c.compileStatus (.GL_COMPUTE_SHADER, src) = true ∧
          c.linkStatus [(.GL_COMPUTE_SHADER, src)] = true then g.next else 0 := by
  unfold compileGLSLProgram
  cases h1 : c.compileStatus (.GL_COMPUTE_SHADER, src) <;>
    cases h2 : c.linkStatus [(.GL_COMPUTE_SHADER, src)] <;>
    simp [compileStages, ShaderGL.glCreateShader, ShaderGL.glCreateProgram, ShaderGL.log, h1, h2]


theorem compileComputeShader_programs (c : Compiler) (src : String) (g : ShaderGL)
    (h1 : c.compileStatus (.GL_COMPUTE_SHADER, src) = true) :
    createdPrograms ((compileComputeShader c src g).2.calls.drop g.calls.length) =
      [g.next + 1] := by
  unfold compileComputeShader
  cases h2 : c.linkStatus [(.GL_COMPUTE_SHADER, src)] <;>
    simp [ShaderGL.glCreateShader, ShaderGL.glCreateProgram, ShaderGL.log, h1, h2,
      createdPrograms]

theorem compileGLSLProgram_programs (c : Compiler) (src : String) (g : ShaderGL) :
    createdPrograms ((compileGLSLProgram c [(.GL_COMPUTE_SHADER, src)] g).2.calls.drop
      g.calls.length) = [g.next] := by
  unfold compileGLSLProgram
  cases h1 : c.compileStatus (.GL_COMPUTE_SHADER, src) <;>
    cases h2 : c.linkStatus [(.GL_COMPUTE_SHADER, src)] <;>
    simp [compileStages, ShaderGL.glCreateShader, ShaderGL.glCreateProgram, ShaderGL.log, h1,
      h2, createdPrograms]

/-- C26: `compileComputeShader(src)` and `compileGLSLProgram(1, GL_COMPUTE_SHADER, src)`
both return 0 when the compile fails, both return 0 when the compile succeeds and the link
fails, and otherwise each returns the one program it created with `glCreateProgram`: the
name after the shader's for the first, which creates the shader first, and the name before
it for the second.  With object names above 0 the one returns 0 if and only if the other
does. -/
theorem compile_functions_agree (c : Compiler) (src : String) (g : ShaderGL) :
    (c.compileStatus (.GL_COMPUTE_SHADER, src) = false →
      (compileComputeShader c src g).1 = 0 ∧
      (compileGLSLProgram c [(.GL_COMPUTE_SHADER, src)] g).1 = 0) ∧
    (c.compileStatus (.GL_COMPUTE_SHADER, src) = true →
      c.linkStatus [(.GL_COMPUTE_SHADER, src)] = false →
      (compileComputeShader c src g).1 = 0 ∧
      (compileGLSLProgram c [(.GL_COMPUTE_SHADER, src)] g).1 = 0) ∧
    (c.compileStatus (.GL_COMPUTE_SHADER, src) = true →
      c.linkStatus [(.GL_COMPUTE_SHADER, src)] = true →
      createdPrograms ((compileComputeShader c src g).2.calls.drop g.calls.length) =
        [(compileComputeShader c src g).1] ∧
      createdPrograms ((compileGLSLProgram c [(.GL_COMPUTE_SHADER, src)] g).2.calls.drop
        g.calls.length) = [(compileGLSLProgram c [(.GL_COMPUTE_SHADER, src)] g).1] ∧
      (compileComputeShader c src g).1 = g.next + 1 ∧
      (compileGLSLProgram c [(.GL_COMPUTE_SHADER, src)] g).1 = g.next) ∧
    (0 < g.next →
      ((compileComputeShader c src g).1 = 0 ↔
        (compileGLSLProgram c [(.GL_COMPUTE_SHADER, src)] g).1 = 0)) := by
  rw [compileComputeShader_result, compileGLSLProgram_single]
  refine ⟨?_, ?_, ?_, ?_⟩
  · intro h1
    simp [h1]
  · intro h1 h2
    simp [h1, h2]
  · intro h1 h2
    rw [compileComputeShader_programs c src g h1, compileGLSLProgram_programs]
    simp [h1, h2]
  · intro hpos
    split_ifs
    · exact ⟨fun h => h.elim, fun h => by omega⟩
    · exact ⟨fun _ => rfl, fun _ => rfl⟩

/-- Witness of `compile_functions_agree`: a source that compiles and links. -/
theorem compile_functions_agree_witness :
    strictCompiler.compileStatus (.GL_COMPUTE_SHADER, "void main();") = true ∧
    strictCompiler.linkStatus [(.GL_COMPUTE_SHADER, "void main();")] = true ∧
    createdPrograms ((compileComputeShader strictCompiler "void main();" freshGL).2.calls.drop
      freshGL.calls.length) = [(compileComputeShader strictCompiler "void main();" freshGL).1] :=
  ⟨by decide, by decide,
    ((compile_functions_agree strictCompiler "void main();" freshGL).2.2.1 (by decide)
      (by decide)).1⟩

/-! ## Written and binary textures -/

namespace ConwayGameOfLife

theorem randomTexel_binary (dis : Nat → Fin 2) (x y : Int) :
    randomTexel dis x y = live ∨ randomTexel dis x y = dead := by
  unfold randomTexel live dead
  generalize dis (y * GRID_WIDTH + x).toNat = d
  fin_cases d
  · right; rfl
  · left; rfl

theorem golMain_binary (inputImage : Image) (gid : Int × Int) (v : Texel)
    (h : golMain inputImage gid = some v) : v = live ∨ v = dead := by
  simp only [golMain] at h
  split at h
  · exact absurd h (by simp)
  · have hv := Option.some.inj h
    rw [← hv]
    cases golNextAlive (golSum inputImage gid) (aboveHalf (imageLoad inputImage gid).r)
    · right; rfl
    · left; rfl

theorem aboveHalf_binary (t : Texel) (h : t = live ∨ t = dead) :
    (t.r = 0 ∨ t.r = 255) ∧ t.g = t.r ∧ t.b = t.r ∧ t.a = 255 ∧
    (aboveHalf t.r = true ↔ t.r = 255) ∧ (aboveHalf t.r = false ↔ t.r = 0) := by
  rcases h with h | h <;> subst h <;> simp [live, dead, aboveHalf]

theorem setupTextures_data (undef : Int → Int → Int → Texel) (dis : Nat → Fin 2) :
    (∀ x y : Int, 0 ≤ x → x < GRID_WIDTH → 0 ≤ y → y < GRID_HEIGHT →
      ((setupTextures undef dis new).textures 0).data x y = randomTexel dis x y) ∧
    ((setupTextures undef dis new).textures 1).data = undef 1 := by
  constructor
  · intro x y hx0 hx hy0 hy
    rw [← randomState_texel dis x y hx0 hy0]
    simp only [GRID_WIDTH, GRID_HEIGHT] at hx hy
    simp [setupTextures, glTexImage2D, glTexSubImage2D, glBindTexture, log, new,
      GRID_WIDTH, GRID_HEIGHT, hx0, hx, hy0, hy]
  · simp [setupTextures, glTexImage2D, glTexSubImage2D, glBindTexture, log, new,
      GRID_WIDTH, GRID_HEIGHT, Function.update]

theorem randomizeGrid_front_data (dis : Nat → Fin 2) (s : ConwayGameOfLife) (h : WellFormed s)
    (x y : Int) (hx0 : 0 ≤ x) (hx : x < GRID_WIDTH) (hy0 : 0 ≤ y) (hy : y < GRID_HEIGHT) :
    ((randomizeGrid dis s).textures s.current_texture).data x y = randomTexel dis x y := by
  have hcur := h.1 s.current_texture h.2
  rw [randomizeGrid_textures dis s hcur.1 hcur.2, Function.update_same]
  simp only [hx0, hx, hy0, hy, and_self, if_true]
  exact randomState_texel dis x y hx0 hy0

theorem updateGeneration_back_data (s : ConwayGameOfLife) (h : WellFormed s)
    (x y : Int) (hx0 : 0 ≤ x) (hx : x < GRID_WIDTH) (hy0 : 0 ≤ y) (hy : y < GRID_HEIGHT) :
    golMain (s.textures s.current_texture) (x, y) =
      some (((updateGeneration s).textures (1 - s.current_texture)).data x y) := by
  have hcur := h.1 s.current_texture h.2
  have hback := h.1 (1 - s.current_texture) (by rcases h.2 with h2 | h2 <;> omega)
  obtain ⟨v, hv⟩ := golMain_isSome (s.textures s.current_texture) x y
    (by rw [hcur.1]; exact hx) (by rw [hcur.2]; exact hy)
  rw [updateGeneration_textures, Function.update_same, hv]
  simp only [GRID_WIDTH, GRID_HEIGHT] at hx hy
  have hc : invoked 32 32 (x, y) ∧ x < (s.textures (1 - s.current_texture)).width ∧
      y < (s.textures (1 - s.current_texture)).height := by
    rw [hback.1, hback.2]
    simp only [invoked, LOCAL_SIZE, GRID_WIDTH, GRID_HEIGHT]
    omega
  simp only [dispatch, if_pos hc, hv]


theorem reachable_frontBinary {s : ConwayGameOfLife} (h : Reachable s) : FrontBinary s := by
  induction h with
  | setup undef dis =>
    intro x y hx0 hx hy0 hy
    rw [(setupTextures_fields undef dis).1, (setupTextures_data undef dis).1 x y hx0 hx hy0 hy]
    exact randomTexel_binary dis x y
  | @step s hs ih =>
    intro x y hx0 hx hy0 hy
    rw [updateGeneration_current_texture]
    exact golMain_binary _ _ _
      (updateGeneration_back_data s (reachable_wellFormed hs) x y hx0 hx hy0 hy)
  | @reset s dis hs ih =>
    intro x y hx0 hx hy0 hy
    rw [randomizeGrid_current_texture,
      randomizeGrid_front_data dis s (reachable_wellFormed hs) x y hx0 hx hy0 hy]
    exact randomTexel_binary dis x y
  | @draw s hs ih =>
    intro x y hx0 hx hy0 hy
    rw [render_textures, render_current_texture]
    exact ih x y hx0 hx hy0 hy

theorem readTrack_append (a b : List GLCall) :
    readTrack (a ++ b) = b.foldl readCall (readTrack a) := by
  simp only [readTrack, List.foldl_append]

/-- The replay of reads agrees with the driver state, has met no read of an unwritten
texture, and counts the front texture as written. -/
theorem reachable_readTrack {s : ConwayGameOfLife} (h : Reachable s) :
    (readTrack s.calls).unit0 = readIndex s ∧ (readTrack s.calls).unit1 = writeIndex s ∧
    (readTrack s.calls).bound = s.boundTexture ∧ (readTrack s.calls).ok = true ∧
    (readTrack s.calls).written.contains s.current_texture = true := by
  induction h with
  | setup undef dis =>
    obtain ⟨hc, -, hu, hb⟩ := setupTextures_fields undef dis
    have h0 : (setupTextures undef dis new).imageUnit 0 = none := by
      simp [setupTextures, glTexImage2D, glTexSubImage2D, glBindTexture, log, new,
        GRID_WIDTH, GRID_HEIGHT]
    rw [setupTextures_calls, hc, hb, readIndex, writeIndex, hu, h0]
    decide
  | @step s _ ih =>
    obtain ⟨h0, h1, h2, h3, h4⟩ := ih
    rw [updateGeneration_calls, readTrack_append, readIndex_updateGeneration,
      writeIndex_updateGeneration, updateGeneration_boundTexture,
      updateGeneration_current_texture]
    generalize readTrack s.calls = t at h0 h1 h2 h3 h4
    obtain ⟨u0, u1, b, W, ok⟩ := t
    simp only at h0 h1 h2 h3 h4
    subst h3
    have h4' : s.current_texture ∈ W := by simpa using h4
    simp [readCall, ReadTrack.has, h2, h4', GRID_WIDTH, GRID_HEIGHT, LOCAL_SIZE]
  | @reset s dis _ ih =>
    obtain ⟨h0, h1, h2, h3, h4⟩ := ih
    rw [randomizeGrid_calls, readTrack_append, randomizeGrid_boundTexture,
      randomizeGrid_current_texture]
    generalize readTrack s.calls = t at h0 h1 h2 h3 h4
    obtain ⟨u0, u1, b, W, ok⟩ := t
    simp only at h0 h1 h2 h3 h4
    subst h3
    have h0' : u0 = Option.map (fun u => u.texture) (s.imageUnit 0) := h0
    have h1' : u1 = Option.map (fun u => u.texture) (s.imageUnit 1) := h1
    simp [readCall, readIndex, writeIndex, randomizeGrid_imageUnit, ← h0', ← h1', GRID_WIDTH,
      GRID_HEIGHT]
  | @draw s _ ih =>
    obtain ⟨h0, h1, h2, h3, h4⟩ := ih
    rw [render_calls, readTrack_append, render_boundTexture, render_current_texture]
    generalize readTrack s.calls = t at h0 h1 h2 h3 h4
    obtain ⟨u0, u1, b, W, ok⟩ := t
    simp only at h0 h1 h2 h3 h4
    subst h3
    have h4' : s.current_texture ∈ W := by simpa using h4
    have h0' : u0 = Option.map (fun u => u.texture) (s.imageUnit 0) := h0
    have h1' : u1 = Option.map (fun u => u.texture) (s.imageUnit 1) := h1
    simp [readCall, ReadTrack.has, readIndex, writeIndex, render_imageUnit, ← h0', ← h1', h4']


theorem apply_wellFormed (o : Op) (s : ConwayGameOfLife) (h : WellFormed s) :
    WellFormed (o.apply s) := by
  cases o with
  | step => exact updateGeneration_wellFormed s h
  | reset dis => exact randomizeGrid_wellFormed dis s h
  | draw => exact render_wellFormed s h

theorem apply_reachable (o : Op) (s : ConwayGameOfLife) (h : Reachable s) :
    Reachable (o.apply s) := by
  cases o with
  | step => exact Reachable.step h
  | reset dis => exact Reachable.reset dis h
  | draw => exact Reachable.draw h

theorem frontAgree_apply (o : Op) (s s' : ConwayGameOfLife) (hw : WellFormed s)
    (hw' : WellFormed s') (h : FrontAgree s s') : FrontAgree (o.apply s) (o.apply s') := by
  obtain ⟨hc, hd⟩ := h
  cases o with
  | step =>
    refine ⟨by simp only [Op.apply, updateGeneration_current_texture, hc], ?_⟩
    intro x y hx0 hx hy0 hy
    have hcur := hw.1 s.current_texture hw.2
    have hcur' := hw'.1 s'.current_texture hw'.2
    have hm : golMain (s.textures s.current_texture) = golMain (s'.textures s'.current_texture) :=
      golMain_congr _ _ (hcur.1.trans hcur'.1.symm) (hcur.2.trans hcur'.2.symm)
        (fun x y hx0 hx hy0 hy => hd x y hx0 (by rw [← hcur.1]; exact hx) hy0
          (by rw [← hcur.2]; exact hy))
    have h1 := updateGeneration_back_data s hw x y hx0 hx hy0 hy
    have h2 := updateGeneration_back_data s' hw' x y hx0 hx hy0 hy
    rw [hm, h2] at h1
    simp only [Op.apply, updateGeneration_current_texture]
    exact (Option.some.inj h1).symm
  | reset dis =>
    refine ⟨by simp only [Op.apply, randomizeGrid_current_texture, hc], ?_⟩
    intro x y hx0 hx hy0 hy
    simp only [Op.apply, randomizeGrid_current_texture]
    rw [randomizeGrid_front_data dis s hw x y hx0 hx hy0 hy,
      randomizeGrid_front_data dis s' hw' x y hx0 hx hy0 hy]
  | draw =>
    refine ⟨by simp only [Op.apply, render_current_texture, hc], ?_⟩
    intro x y hx0 hx hy0 hy
    simp only [Op.apply, render_current_texture, render_textures]
    exact hd x y hx0 hx hy0 hy

theorem frontAgree_foldl (ops : List Op) :
    ∀ s s' : ConwayGameOfLife, WellFormed s → WellFormed s' → FrontAgree s s' →
      FrontAgree (ops.foldl (fun s o => o.apply s) s) (ops.foldl (fun s o => o.apply s) s') := by
  induction ops with
  | nil => intro s s' _ _ h; exact h
  | cons o rest ih =>
    intro s s' hw hw' h
    exact ih _ _ (apply_wellFormed o s hw) (apply_wellFormed o s' hw')
      (frontAgree_apply o s s' hw hw' h)

theorem reachable_foldl (ops : List Op) :
    ∀ s : ConwayGameOfLife, Reachable s → Reachable (ops.foldl (fun s o => o.apply s) s) := by
  induction ops with
  | nil => intro s h; exact h
  | cons o rest ih => intro s h; exact ih _ (apply_reachable o s h)

end ConwayGameOfLife

theorem runOps_reachable (undef : Int → Int → Int → Texel) (dis : Nat → Fin 2) (ops : List Op) :
    ConwayGameOfLife.Reachable (runOps undef dis ops) :=
  ConwayGameOfLife.reachable_foldl ops _ (ConwayGameOfLife.Reachable.setup undef dis)

/-- The front texture after any sequence of steps, resets and draws is the same whatever
the storage of the textures held before `setupTextures`. -/
theorem runOps_frontAgree (undef undef' : Int → Int → Int → Texel) (dis : Nat → Fin 2)
    (ops : List Op) :
    ConwayGameOfLife.FrontAgree (runOps undef dis ops) (runOps undef' dis ops) := by
  apply ConwayGameOfLife.frontAgree_foldl ops _ _
    (ConwayGameOfLife.setupTextures_wellFormed undef dis)
    (ConwayGameOfLife.setupTextures_wellFormed undef' dis)
  refine ⟨by rw [(ConwayGameOfLife.setupTextures_fields undef dis).1,
    (ConwayGameOfLife.setupTextures_fields undef' dis).1], ?_⟩
  intro x y hx0 hx hy0 hy
  rw [(ConwayGameOfLife.setupTextures_fields undef dis).1,
    (ConwayGameOfLife.setupTextures_fields undef' dis).1,
    (ConwayGameOfLife.setupTextures_data undef dis).1 x y hx0 hx hy0 hy,
    (ConwayGameOfLife.setupTextures_data undef' dis).1 x y hx0 hx hy0 hy]

namespace ConwayGameOfLife

/-- C23: in a reachable state of the Conway demo every draw and every dispatch of the call
list read a texture of which every cell had been written, and the front texture, which
`render` samples and the next `updateGeneration` binds as the kernel's input, is such a
texture.  The dispatch of `updateGeneration` stores to every cell of the back texture and a
reset uploads every cell of the front texture.  After `setupTextures` only `textures[0]` is
written and is the front, while `textures[1]` holds what the storage had.  The front
texture after any steps, resets and draws does not depend on what the storage had. -/
theorem no_read_before_written (s : ConwayGameOfLife) (h : Reachable s) :
    (readTrack s.calls).ok = true ∧
    (readTrack s.calls).has (some s.current_texture) = true ∧
    ((render s).boundTexture = some s.current_texture ∧
      readIndex (updateGeneration s) = some s.current_texture) ∧
    (∀ x y : Int, 0 ≤ x → x < GRID_WIDTH → 0 ≤ y → y < GRID_HEIGHT →
      golMain (s.textures s.current_texture) (x, y) =
        some (((updateGeneration s).textures (1 - s.current_texture)).data x y)) ∧
    (∀ (dis : Nat → Fin 2) (x y : Int), 0 ≤ x → x < GRID_WIDTH → 0 ≤ y → y < GRID_HEIGHT →
      ((randomizeGrid dis s).textures s.current_texture).data x y = randomTexel dis x y) ∧
    (∀ (undef : Int → Int → Int → Texel) (dis : Nat → Fin 2),
      (readTrack (setupTextures undef dis new).calls).written = [0] ∧
      (setupTextures undef dis new).current_texture = 0 ∧
      ((setupTextures undef dis new).textures 1).data = undef 1 ∧
      ∀ x y : Int, 0 ≤ x → x < GRID_WIDTH → 0 ≤ y → y < GRID_HEIGHT →
        ((setupTextures undef dis new).textures 0).data x y = randomTexel dis x y) ∧
    (∀ (undef undef' : Int → Int → Int → Texel) (dis : Nat → Fin 2) (ops : List Op),
      FrontAgree (runOps undef dis ops) (runOps undef' dis ops)) := by
  obtain ⟨-, -, -, hok, hw⟩ := reachable_readTrack h
  have hwf := reachable_wellFormed h
  refine ⟨hok, hw, ⟨render_boundTexture s, readIndex_updateGeneration s⟩,
    updateGeneration_back_data s hwf, fun dis => randomizeGrid_front_data dis s hwf, ?_,
    runOps_frontAgree⟩
  intro undef dis
  refine ⟨?_, (setupTextures_fields undef dis).1, (setupTextures_data undef dis).2,
    (setupTextures_data undef dis).1⟩
  rw [setupTextures_calls]
  decide

/-- Witness of `no_read_before_written` after one step. -/
theorem no_read_before_written_witness :
    Reachable afterOneStep ∧ (readTrack afterOneStep.calls).ok = true ∧
    (readTrack afterOneStep.calls).has (some afterOneStep.current_texture) = true :=
  ⟨afterOneStep_reachable, (no_read_before_written afterOneStep afterOneStep_reachable).1,
    (no_read_before_written afterOneStep afterOneStep_reachable).2.1⟩

/-- C27: every texel `setupTextures` and `randomizeGrid` build and every texel the kernel
stores is (255, 255, 255, 255) or (0, 0, 0, 255); in a reachable state every cell of the
front texture is one of the two, so its red byte is 0 or 255 and the kernel's test
`value > 0.5` holds exactly for 255 and fails exactly for 0. -/
theorem cells_stay_binary (s : ConwayGameOfLife) (h : Reachable s) :
    live = ⟨255, 255, 255, 255⟩ ∧ dead = ⟨0, 0, 0, 255⟩ ∧
    (∀ (dis : Nat → Fin 2) (x y : Int),
      randomTexel dis x y = live ∨ randomTexel dis x y = dead) ∧
    (∀ (inputImage : Image) (gid : Int × Int) (v : Texel),
      golMain inputImage gid = some v → v = live ∨ v = dead) ∧
    (∀ x y : Int, 0 ≤ x → x < GRID_WIDTH → 0 ≤ y → y < GRID_HEIGHT →
      ((s.textures s.current_texture).data x y = live ∨
        (s.textures s.current_texture).data x y = dead) ∧
      (((s.textures s.current_texture).data x y).r = 0 ∨
        ((s.textures s.current_texture).data x y).r = 255) ∧
      (aboveHalf ((s.textures s.current_texture).data x y).r = true ↔
        ((s.textures s.current_texture).data x y).r = 255) ∧
      (aboveHalf ((s.textures s.current_texture).data x y).r = false ↔
        ((s.textures s.current_texture).data x y).r = 0)) := by
  refine ⟨rfl, rfl, randomTexel_binary, golMain_binary, ?_⟩
  intro x y hx0 hx hy0 hy
  have hb := reachable_frontBinary h x y hx0 hx hy0 hy
  obtain ⟨h1, -, -, -, h5, h6⟩ := aboveHalf_binary _ hb
  exact ⟨hb, h1, h5, h6⟩

/-- Witness of `cells_stay_binary` at cell (0, 0) after one step. -/
theorem cells_stay_binary_witness :
    Reachable afterOneStep ∧
    ((afterOneStep.textures afterOneStep.current_texture).data 0 0 = live ∨
      (afterOneStep.textures afterOneStep.current_texture).data 0 0 = dead) :=
  ⟨afterOneStep_reachable,
    ((cells_stay_binary afterOneStep afterOneStep_reachable).2.2.2.2 0 0 (by decide) (by decide)
      (by decide) (by decide)).1⟩

end ConwayGameOfLife

end MGL
